import Mathlib

/-!
# go-orm-benchmarks: the `raw` and `pgx_pool` accessors

A shallow embedding of `bench/raw.go` and `bench/pgx_pool.go`.

* Go strings are Lean strings; `strconv.Itoa` on the non-negative loop
  counter is the decimal representation of a natural number.
* Counted Go loops whose body does not assign the loop variable are folds
  over `List.range`; the benchmark loop `for i := 0; i < b.N; i++`, whose body
  never reads `i`, is a recursion on `b.N`.
* The database, the record synthesiser and the harness form an environment:
  a state machine that answers each call, and a trace of the calls made.
* A Go run-time panic (nil dereference, index out of range) is an explicit
  outcome of a run.
-/

namespace Bench

/-! ## Data model -/

/-- A value passed as `interface{}`; `null` is the nil interface. -/
inductive Value where
  | null
  | str (s : String)
  | int (i : Int)
  | bool (b : Bool)
  deriving DecidableEq, Repr

/-- Modelled from the spec: the record type `Model` (its declaration is not
among the sources): identifier, four text fields, age, flag, counter. -/
structure Model where
  Id : Int
  Name : String
  Title : String
  Fax : String
  Web : String
  Age : Int
  Right : Bool
  Counter : Int
  deriving DecidableEq, Repr

instance : Inhabited Model := ⟨⟨0, "", "", "", "", 0, false, 0⟩⟩

/-- The seven non-identifier fields, in the order of the struct. -/
inductive Field where
  | Name | Title | Fax | Web | Age | Right | Counter
  deriving DecidableEq, Repr

/-- All non-identifier fields in declaration order. -/
def Field.all : List Field :=
  [.Name, .Title, .Fax, .Web, .Age, .Right, .Counter]

/-- The value of a field of a record. -/
def Field.get (m : Model) : Field → Value
  | .Name => .str m.Name
  | .Title => .str m.Title
  | .Fax => .str m.Fax
  | .Web => .str m.Web
  | .Age => .int m.Age
  | .Right => .bool m.Right
  | .Counter => .int m.Counter

/-- The column of the table `models` that carries a field. -/
def Field.column : Field → String
  | .Name => "name"
  | .Title => "title"
  | .Fax => "fax"
  | .Web => "web"
  | .Age => "age"
  | .Right => "\"right\""
  | .Counter => "counter"

/-! ## Statement texts of `raw.go` -/

/-- The constant `rawInsertBaseSQL`. -/
def rawInsertBaseSQL : String :=
  "INSERT INTO models (name, title, fax, web, age, \"right\", counter) VALUES "

/-- The constant `rawInsertValuesSQL`. -/
def rawInsertValuesSQL : String := "($1, $2, $3, $4, $5, $6, $7)"

/-- The constant `rawInsertSQL`. -/
def rawInsertSQL : String := rawInsertBaseSQL ++ rawInsertValuesSQL

/-- The constant `rawUpdateSQL`. -/
def rawUpdateSQL : String :=
  "UPDATE models SET name = $1, title = $2, fax = $3, web = $4, age = $5, \"right\" = $6, counter = $7 WHERE id = $8"

/-- The constant `rawSelectSQL`. -/
def rawSelectSQL : String :=
  "SELECT id, name, title, fax, web, age, \"right\", counter FROM models WHERE id = $1"

/-- The constant `rawSelectMultiSQL`. -/
def rawSelectMultiSQL : String :=
  "SELECT id, name, title, fax, web, age, \"right\", counter FROM models WHERE id > 0 LIMIT 100"

/-- The constants of the pooled strategy that are declared outside the two
source files (`sqlxInsertSQL`, `sqlxUpdateSQL`, `sqlxSelectSQL`,
`sqlxSelectMultiSQL`, `columns`): their values are parameters. -/
structure Sqlx where
  sqlxInsertSQL : String
  sqlxUpdateSQL : String
  sqlxSelectSQL : String
  sqlxSelectMultiSQL : String
  columns : List String

/-! ## Assembly of the multi-row statement (`Raw.InsertMulti`, lines 78-96) -/

/-- Go's `strconv.Itoa` on a non-negative `int`. -/
def itoa (n : Nat) : String := Nat.repr n

/-- One pass of the inner loop body (lines 83-88); the state is
`(hoge, counter)`. -/
def hogeStep (st : String × Nat) (j : Nat) : String × Nat :=
  if j ≠ 6 then (st.1 ++ ("$" ++ itoa st.2 ++ ","), st.2 + 1)
  else (st.1 ++ ("$" ++ itoa st.2), st.2 + 1)

/-- One pass of the outer loop body (lines 81-95); the state is
`(valuesSQL, counter)`. -/
def valuesStep (st : String × Nat) (i : Nat) : String × Nat :=
  let inner := (List.range 7).foldl hogeStep ("", st.2)
  if i ≠ 99 then (st.1 ++ ("(" ++ inner.1 ++ "),"), inner.2)
  else (st.1 ++ ("(" ++ inner.1 ++ ")"), inner.2)

/-- The text `valuesSQL` that `Raw.InsertMulti` assembles (lines 78-96). -/
def insertMultiValuesSQL : String :=
  ((List.range 100).foldl valuesStep ("", 1)).1

/-- The statement `query` of `Raw.InsertMulti` (line 100). -/
def insertMultiQuery : String := rawInsertBaseSQL ++ insertMultiValuesSQL

/-! ### Reference definition of the multi-row statement -/

/-- The tuple of record `i` in the words of the specification: the seven
placeholders numbered `7i+1 .. 7i+7`, comma-separated, in parentheses. -/
def specTuple (i : Nat) : String :=
  "(" ++ ",".intercalate ((List.range 7).map fun k => "$" ++ itoa (7 * i + k + 1)) ++ ")"

/-- The multi-row statement in the words of the specification. -/
def specInsertMultiQuery : String :=
  rawInsertBaseSQL ++ ",".intercalate ((List.range 100).map specTuple)

/-! ### Reading placeholders back from a statement text -/

/-- Value of a decimal digit character. -/
def digitVal (c : Char) : Nat := c.toNat - 48

/-- Scanner for placeholders: `cur` is the number being read after a `$`. -/
def scanPlaceholders : List Char → Option Nat → List Nat
  | [], none => []
  | [], some n => [n]
  | c :: cs, none =>
    if c = '$' then scanPlaceholders cs (some 0) else scanPlaceholders cs none
  | c :: cs, some n =>
    if c.isDigit then scanPlaceholders cs (some (10 * n + digitVal c))
    else n :: (if c = '$' then scanPlaceholders cs (some 0) else scanPlaceholders cs none)

/-- The placeholders `$n` of a statement, read left to right. -/
def placeholders (s : String) : List Nat := scanPlaceholders s.data none

/-- Scanner for parenthesised value tuples: `tup` is the open tuple (its
placeholders so far), `cur` the number being read after a `$`. -/
def scanTuples : List Char → Option (List Nat) → Option Nat → List (List Nat)
  | [], _, _ => []
  | c :: cs, none, _ =>
    if c = '(' then scanTuples cs (some []) none else scanTuples cs none none
  | c :: cs, some t, none =>
    if c = '$' then scanTuples cs (some t) (some 0)
    else if c = ')' then t :: scanTuples cs none none
    else scanTuples cs (some t) none
  | c :: cs, some t, some n =>
    if c.isDigit then scanTuples cs (some t) (some (10 * n + digitVal c))
    else if c = ')' then (t ++ [n]) :: scanTuples cs none none
    else scanTuples cs (some (t ++ [n])) none

/-- The value tuples of an insert statement on `models`: the parenthesised
groups of placeholders after `rawInsertBaseSQL`. -/
def valueTuples (sql : String) : Option (List (List Nat)) :=
  if rawInsertBaseSQL.data.isPrefixOf sql.data then
    some (scanTuples (sql.data.drop rawInsertBaseSQL.data.length) none none)
  else none

/-! ### Reference rendering of the single-row statements -/

/-- Text of `INSERT INTO models (c1, c2, ...) VALUES `. -/
def renderInsertBase (cols : List String) : String :=
  "INSERT INTO models (" ++ ", ".intercalate cols ++ ") VALUES "

/-- Text of `UPDATE models SET c1 = $p1, ... WHERE w = $q`. -/
def renderUpdate (assigns : List (String × Nat)) (whereCol : String) (wherePh : Nat) : String :=
  "UPDATE models SET " ++ ", ".intercalate (assigns.map fun a => a.1 ++ " = $" ++ itoa a.2)
    ++ " WHERE " ++ whereCol ++ " = $" ++ itoa wherePh

/-! ## Argument list of the multi-row insert (`Raw.InsertMulti`, lines 101-111) -/

/-- Go's indexed store `a[i] = v`; `none` is the index-out-of-range panic. -/
def setIndex {α : Type} (a : List α) (i : Nat) (v : α) : Option (List α) :=
  if i < a.length then some (a.set i v) else none

/-- Body of `for j := range ms` (lines 103-110). -/
def argsStep (nFields : Nat) (acc : Option (List Value)) (jm : Nat × Model) :
    Option (List Value) := do
  let args ← acc
  let offset := jm.1 * nFields
  let args ← setIndex args (offset + 0) (.str jm.2.Name)
  let args ← setIndex args (offset + 1) (.str jm.2.Title)
  let args ← setIndex args (offset + 2) (.str jm.2.Fax)
  let args ← setIndex args (offset + 3) (.str jm.2.Web)
  let args ← setIndex args (offset + 4) (.int jm.2.Age)
  let args ← setIndex args (offset + 5) (.bool jm.2.Right)
  setIndex args (offset + 6) (.int jm.2.Counter)

/-- The slice `args` built in one timed iteration of `Raw.InsertMulti`
(lines 99-111); `none` if an indexed store panics. -/
def insertMultiArgs (ms : List Model) : Option (List Value) :=
  let nFields := 7
  ms.enum.foldl (argsStep nFields) (some (List.replicate (ms.length * nFields) Value.null))

/-- The arguments `m.Name, m.Title, m.Fax, m.Web, m.Age, m.Right, m.Counter`
of the single-row insert. -/
def insertArgs (m : Model) : List Value :=
  [.str m.Name, .str m.Title, .str m.Fax, .str m.Web, .int m.Age, .bool m.Right, .int m.Counter]

/-- The arguments `m.Name, ..., m.Counter, m.Id` of the update. -/
def updateArgs (m : Model) : List Value :=
  [.str m.Name, .str m.Title, .str m.Fax, .str m.Web, .int m.Age, .bool m.Right, .int m.Counter,
    .int m.Id]

/-! ## The environment: backend, record synthesiser, harness -/

/-- A call on the connection, without its answer. -/
inductive Call where
  | exec (sql : String) (args : List Value)
  | copyFrom (table : List String) (columns : List String) (rows : List (List Value))
  | queryRow (sql : String) (args : List Value)
  | query (sql : String)
  deriving DecidableEq, Repr

/-- What a run does, in order: harness calls, record synthesis, calls on the
connection with the error they returned, operations on a row cursor, and
reports to the error sink. -/
inductive Event where
  | newModel
  | reportAllocs
  | resetTimer
  | call (c : Call) (err : Option String)
  | rowsNext (more : Bool)
  | rowsScan (j : Nat) (err : Option String)
  | rowsErr (err : Option String)
  | rowsClose (err : Option String)
  | setError (orm : String) (method : String) (err : String)
  deriving DecidableEq, Repr

/-- A row cursor as the driver hands it out: the rows it will yield, each with
the outcome of scanning it, the error `Err()` reports after the last row, and
the error `Close()` returns. -/
structure Rows where
  pending : List (Except String Model)
  err : Option String
  closeErr : Option String

/-- The cursor the pooled driver returns together with a query error: it
yields no row, `Err()` is the query error, closing it does nothing. -/
def errRows (e : String) : Rows := ⟨[], some e, none⟩

/-- The environment as a state machine over `σ`: the record synthesiser and
the answers of the backend to each kind of call. A failed multi-row query
answers `Except.error`: the generic driver interface then returns a nil
cursor, the pooled driver returns `errRows`. -/
structure Env (σ : Type) where
  newModel : σ → Model × σ
  exec : String → List Value → σ → Option String × σ
  copyFrom : List String → List String → List (List Value) → σ → Option String × σ
  queryRow : String → List Value → σ → Except String Model × σ
  query : String → σ → Except String Rows × σ

/-- State of a run: the state of the environment and the trace so far. -/
structure World (σ : Type) where
  db : σ
  trace : List Event

/-- Outcome of a run that may panic: the world reached, and the panic if any. -/
structure Run (σ : Type) where
  world : World σ
  panic : Option String

variable {σ : Type}

/-- Appends an event to the trace. -/
def World.emit (w : World σ) (e : Event) : World σ :=
  { w with trace := w.trace ++ [e] }

/-- Modelled from the spec: `helper.SetError` (the helper package is not
among the sources), the error sink accepting a strategy name, an operation
label and an error text; it records the report and returns. -/
def SetError (w : World σ) (orm method err : String) : World σ :=
  w.emit (.setError orm method err)

/-- Modelled from the spec: `NewModel` (declared outside the two source
files), the record synthesiser; the record is the answer of the environment. -/
def NewModel (env : Env σ) (w : World σ) : Model × World σ :=
  let r := env.newModel w.db
  (r.1, { db := r.2, trace := w.trace ++ [.newModel] })

/-- The harness call `b.ReportAllocs()`. -/
def ReportAllocs (w : World σ) : World σ := w.emit .reportAllocs

/-- The harness call `b.ResetTimer()`. -/
def ResetTimer (w : World σ) : World σ := w.emit .resetTimer

/-- The Go value `err` of an answer: nil on success. -/
def errOf {α : Type} : Except String α → Option String
  | .error e => some e
  | .ok _ => none

/-- The call `conn.Exec(sql, args...)`, returning `err`. -/
def connExec (env : Env σ) (sql : String) (args : List Value) (w : World σ) :
    Option String × World σ :=
  let r := env.exec sql args w.db
  (r.1, { db := r.2, trace := w.trace ++ [.call (.exec sql args) r.1] })

/-- The call `conn.CopyFrom(ctx, table, columns, CopyFromRows(rows))`. -/
def connCopyFrom (env : Env σ) (table columns : List String) (rows : List (List Value))
    (w : World σ) : Option String × World σ :=
  let r := env.copyFrom table columns rows w.db
  (r.1, { db := r.2, trace := w.trace ++ [.call (.copyFrom table columns rows) r.1] })

/-- The call `conn.QueryRow(sql, args...).Scan(...)`, returning the record
scanned or the error. -/
def connQueryRow (env : Env σ) (sql : String) (args : List Value) (w : World σ) :
    Except String Model × World σ :=
  let r := env.queryRow sql args w.db
  (r.1, { db := r.2, trace := w.trace ++ [.call (.queryRow sql args) (errOf r.1)] })

/-- The call `conn.Query(sql)`. -/
def connQuery (env : Env σ) (sql : String) (w : World σ) : Except String Rows × World σ :=
  let r := env.query sql w.db
  (r.1, { db := r.2, trace := w.trace ++ [.call (.query sql) (errOf r.1)] })

/-- The statement `if err != nil { helper.SetError(b, orm, method, err.Error()) }`. -/
def ifErr (orm method : String) (err : Option String) (w : World σ) : World σ :=
  match err with
  | some e => SetError w orm method e
  | none => w

/-- The statements `_, err := conn.Exec(sql, args...); if err != nil { helper.SetError(b, orm, method, err.Error()) }`. -/
def execReport (env : Env σ) (sql : String) (args : List Value) (orm method : String)
    (w : World σ) : World σ :=
  let x := connExec env sql args w
  ifErr orm method x.1 x.2

/-- The statements `_, err := conn.CopyFrom(...); if err != nil { helper.SetError(...) }`. -/
def copyReport (env : Env σ) (table columns : List String) (rows : List (List Value))
    (orm method : String) (w : World σ) : World σ :=
  let x := connCopyFrom env table columns rows w
  ifErr orm method x.1 x.2

/-- The statements `var m Model; err := conn.QueryRow(sql, args...).Scan(&m...); if err != nil { helper.SetError(...) }`. -/
def queryRowReport (env : Env σ) (sql : String) (args : List Value) (orm method : String)
    (w : World σ) : World σ :=
  let x := connQueryRow env sql args w
  ifErr orm method (errOf x.1) x.2

/-- The loop `for i := 0; i < n; i++ { body }` for a body that does not read `i`. -/
def benchLoop (body : World σ → World σ) : Nat → World σ → World σ
  | 0, w => w
  | n + 1, w => benchLoop body n (body w)

/-- The same loop for a body that may panic: a panic ends the run. -/
def benchLoopP (body : World σ → Run σ) : Nat → World σ → Run σ
  | 0, w => ⟨w, none⟩
  | n + 1, w =>
    match (body w).panic with
    | none => benchLoopP body n (body w).world
    | some p => ⟨(body w).world, some p⟩

/-- The loop `for i := 0; i < n; i++ { ms = append(ms, NewModel()) }`. -/
def drawModels (env : Env σ) : Nat → World σ → List Model × World σ
  | 0, w => ([], w)
  | n + 1, w =>
    let r := NewModel env w
    let rest := drawModels env n r.2
    (r.1 :: rest.1, rest.2)

/-- State of the scan loop of `ReadSlice`: the index `j`, the result buffer,
the world, and the panic if an index was out of range. -/
structure Scan (σ : Type) where
  j : Nat
  models : List Model
  world : World σ
  panic : Option String

/-- The body of the scan loop of both `ReadSlice` (raw.go 190-202,
pgx_pool.go 171-183): `err = rows.Scan(&models[j]...)`, then the report of
`err`. Taking the address of `models[j]` checks the index: `none` is the
index-out-of-range panic. A failed scan leaves the buffer as it was. -/
def scanStep (orm : String) (r : Except String Model) (j : Nat) (models : List Model)
    (w : World σ) : Option (List Model × World σ) :=
  match models[j]? with
  | none => none
  | some _ =>
    match r with
    | .ok m => some (models.set j m, w.emit (.rowsScan j none))
    | .error e => some (models, SetError (w.emit (.rowsScan j (some e))) orm "ReadSlice" e)

/-- The loop `for j = 0; rows.Next() && j < len(models); j++ { ... }` of both
`ReadSlice` (raw.go 189-203, pgx_pool.go 170-184), by recursion on the rows
the cursor has yet to yield. -/
def scanRows (orm : String) : List (Except String Model) → Nat → List Model → World σ → Scan σ
  | [], j, models, w => ⟨j, models, w.emit (.rowsNext false), none⟩
  | r :: rest, j, models, w =>
    if j < models.length then
      match scanStep orm r j models (w.emit (.rowsNext true)) with
      | none => ⟨j, models, w.emit (.rowsNext true), some "index out of range"⟩
      | some x => scanRows orm rest (j + 1) x.1 x.2
    else ⟨j, models, w.emit (.rowsNext true), none⟩

/-! ## Configuration (`Init`) -/

/-- Go's `time.Duration`: a count of nanoseconds. -/
abbrev Duration := Int

/-- The constant `time.Second`. -/
def Second : Duration := 1000000000

/-- The constant `time.Minute`. -/
def Minute : Duration := 60 * Second

/-- The settings of a `*sql.DB` that `Raw.Init` touches. -/
structure DB where
  maxOpenConns : Int
  maxIdleConns : Int
  connMaxLifetime : Duration
  deriving DecidableEq, Repr

/-- The accessor `Raw`: its connection, nil until `Init` has run. -/
structure Raw where
  conn : Option DB
  deriving DecidableEq, Repr

/-- The constructor `CreateRaw`. -/
def CreateRaw : Raw := ⟨none⟩

/-- The method `Raw.Name`. -/
def Raw.Name (_raw : Raw) : String := "raw"

/-- The method `Raw.Init` (lines 34-48); `sqlOpen` is `sql.Open`, `OrmSource`
the data-source locator `helper.OrmSource`. Returns `err` and the accessor. -/
def Raw.Init (sqlOpen : String → String → Except String DB) (OrmSource : String) (raw : Raw) :
    Option String × Raw :=
  match sqlOpen "pgx" OrmSource with
  | .error e => (some e, raw)
  | .ok db =>
    let db := { db with maxOpenConns := 200 }
    let db := { db with maxIdleConns := 20 }
    let db := { db with connMaxLifetime := 5 * Minute }
    (none, { raw with conn := some db })

/-- The query execution modes of the pooled driver. -/
inductive QueryExecMode where
  | CacheStatement | CacheDescribe | DescribeExec | Exec | SimpleProtocol
  deriving DecidableEq, Repr

/-- The fields of a `*tls.Config` that `PgxPool.Init` sets. -/
structure TLSConfig where
  InsecureSkipVerify : Bool
  deriving DecidableEq, Repr

/-- The fields of a `*pgxpool.Config` that `PgxPool.Init` touches. -/
structure Config where
  TLSConfig : Option TLSConfig
  RuntimeParams : List (String × String)
  DefaultQueryExecMode : QueryExecMode
  MaxConns : Int
  MinConns : Int
  MaxConnLifetime : Duration
  MaxConnIdleTime : Duration
  deriving DecidableEq, Repr

/-- A pool, known by the configuration it was created with. -/
structure Pool where
  config : Config
  deriving DecidableEq, Repr

/-- The accessor `PgxPool`: its connection, nil until `Init` has run. -/
structure PgxPool where
  conn : Option Pool
  deriving DecidableEq, Repr

/-- The constructor `CreatePgxPool`. -/
def CreatePgxPool : PgxPool := ⟨none⟩

/-- The method `PgxPool.Name`. -/
def PgxPool.Name (_pgx : PgxPool) : String := "pgx_pool"

/-- Go's `os.Getenv`: the value of the variable, empty when it is unset. -/
def Getenv (environ : String → Option String) (key : String) : String :=
  (environ key).getD ""

/-- Assignment `m[key] = val` on a Go map kept as an association list. -/
def mapSet (m : List (String × String)) (key val : String) : List (String × String) :=
  (key, val) :: m.filter fun kv => kv.1 ≠ key

/-- Lines 35-52 of `PgxPool.Init`: the settings applied to the parsed
configuration. -/
def PgxPool.configure (environ : String → Option String) (config : Config) : Config :=
  let tlsConfig : TLSConfig := { InsecureSkipVerify := true }
  let config := { config with TLSConfig := some tlsConfig }
  let config := { config with RuntimeParams := mapSet config.RuntimeParams "timezone" "UTC" }
  let config :=
    if Getenv environ "DB_QUERY_MODE_EXEC" = "SIMPLE_PROTOCOL" then
      { config with DefaultQueryExecMode := QueryExecMode.SimpleProtocol }
    else
      { config with DefaultQueryExecMode := QueryExecMode.Exec }
  let config := { config with MaxConns := 200 }
  let config := { config with MinConns := 20 }
  let config := { config with MaxConnLifetime := Second * 9 }
  let config := { config with MaxConnIdleTime := Second * 3 }
  config

/-- The method `PgxPool.Init` (lines 27-60); `parseConfig` is
`pgxpool.ParseConfig`, `newWithConfig` is `pgxpool.NewWithConfig`, returning
its pool (nil or not) and its error. Returns `err` and the accessor. -/
def PgxPool.Init (parseConfig : String → Except String Config)
    (newWithConfig : Config → Option Pool × Option String)
    (environ : String → Option String) (OrmSource : String) (pgx : PgxPool) :
    Option String × PgxPool :=
  match parseConfig OrmSource with
  | .error e => (some e, pgx)
  | .ok config =>
    let config := PgxPool.configure environ config
    let r := newWithConfig config
    let pgx := { pgx with conn := r.1 }
    match r.2 with
    | some e => (some e, pgx)
    | none => (none, pgx)

/-! ## The timed operations of `Raw` -/

/-- The method `Raw.Insert` (lines 54-67). -/
def Raw.Insert (raw : Raw) (env : Env σ) (N : Nat) (w : World σ) : World σ :=
  let r := NewModel env w
  let m := r.1
  let w := ReportAllocs r.2
  let w := ResetTimer w
  benchLoop (execReport env rawInsertSQL (insertArgs m) raw.Name "Insert") N w

/-- One timed iteration of `Raw.InsertMulti` (lines 99-116). -/
def Raw.insertMultiBody (raw : Raw) (env : Env σ) (ms : List Model) (valuesSQL : String)
    (w : World σ) : Run σ :=
  let query := rawInsertBaseSQL ++ valuesSQL
  match insertMultiArgs ms with
  | none => ⟨w, some "index out of range"⟩
  | some args => ⟨execReport env query args raw.Name "InsertMulti" w, none⟩

/-- The method `Raw.InsertMulti` (lines 69-118). -/
def Raw.InsertMulti (raw : Raw) (env : Env σ) (N : Nat) (w : World σ) : Run σ :=
  let r := drawModels env 100 w
  let ms := r.1
  let w := ReportAllocs r.2
  let w := ResetTimer w
  let valuesSQL := insertMultiValuesSQL
  benchLoopP (Raw.insertMultiBody raw env ms valuesSQL) N w

/-- The method `Raw.Update` (lines 120-137). -/
def Raw.Update (raw : Raw) (env : Env σ) (N : Nat) (w : World σ) : World σ :=
  let r := NewModel env w
  let m := r.1
  let w := execReport env rawInsertSQL (insertArgs m) raw.Name "Update" r.2
  let w := ReportAllocs w
  let w := ResetTimer w
  benchLoop (execReport env rawUpdateSQL (updateArgs m) raw.Name "Update") N w

/-- The method `Raw.Read` (lines 139-167). -/
def Raw.Read (raw : Raw) (env : Env σ) (N : Nat) (w : World σ) : World σ :=
  let r := NewModel env w
  let m := r.1
  let w := execReport env rawInsertSQL (insertArgs m) raw.Name "Read" r.2
  let w := ReportAllocs w
  let w := ResetTimer w
  benchLoop (queryRowReport env rawSelectSQL [.int 1] raw.Name "Read") N w

/-- One timed iteration of `Raw.ReadSlice` (lines 182-211). A failed query
leaves `rows` nil, and `rows.Next()` on the nil cursor panics. -/
def Raw.readSliceBody (raw : Raw) (env : Env σ) (w : World σ) : Run σ :=
  let models := List.replicate 100 (default : Model)
  let x := connQuery env rawSelectMultiSQL w
  let w := ifErr raw.Name "ReadSlice" (errOf x.1) x.2
  match x.1 with
  | .error _ => ⟨w, some "nil pointer dereference"⟩
  | .ok rows =>
    let s := scanRows raw.Name rows.pending 0 models w
    match s.panic with
    | some p => ⟨s.world, some p⟩
    | none =>
      let w := s.world.emit (.rowsErr rows.err)
      let w := ifErr raw.Name "ReadSlice" rows.err w
      let w := w.emit (.rowsClose rows.closeErr)
      let w := ifErr raw.Name "ReadSlice" rows.closeErr w
      ⟨w, none⟩

/-- The method `Raw.ReadSlice` (lines 169-213). -/
def Raw.ReadSlice (raw : Raw) (env : Env σ) (N : Nat) (w : World σ) : Run σ :=
  let r := NewModel env w
  let m := r.1
  let w := benchLoop (execReport env rawInsertSQL (insertArgs m) raw.Name "ReadSlice") 100 r.2
  let w := ReportAllocs w
  let w := ResetTimer w
  benchLoopP (Raw.readSliceBody raw env) N w

/-! ## The timed operations of `PgxPool` -/

/-- The method `PgxPool.Insert` (lines 68-80). -/
def PgxPool.Insert (pgx : PgxPool) (k : Sqlx) (env : Env σ) (N : Nat) (w : World σ) : World σ :=
  let r := NewModel env w
  let m := r.1
  let w := ReportAllocs r.2
  let w := ResetTimer w
  benchLoop (execReport env k.sqlxInsertSQL (insertArgs m) pgx.Name "Insert") N w

/-- The row source of `PgxPool.InsertMulti` (lines 83-88). -/
def PgxPool.insertMultiRows (m : Model) : List (List Value) :=
  (List.range 100).foldl (fun rows _ => rows ++ [insertArgs m]) []

/-- The method `PgxPool.InsertMulti` (lines 82-99). -/
def PgxPool.InsertMulti (pgx : PgxPool) (k : Sqlx) (env : Env σ) (N : Nat) (w : World σ) :
    World σ :=
  let r := NewModel env w
  let m := r.1
  let rows := PgxPool.insertMultiRows m
  let w := ReportAllocs r.2
  let w := ResetTimer w
  benchLoop (copyReport env ["models"] k.columns rows pgx.Name "InsertMulti") N w

/-- The method `PgxPool.Update` (lines 101-119). -/
def PgxPool.Update (pgx : PgxPool) (k : Sqlx) (env : Env σ) (N : Nat) (w : World σ) : World σ :=
  let r := NewModel env w
  let m := { r.1 with Id := 1 }
  let w := execReport env k.sqlxInsertSQL (insertArgs m) pgx.Name "Update" r.2
  let w := ReportAllocs w
  let w := ResetTimer w
  benchLoop (execReport env k.sqlxUpdateSQL (updateArgs m) pgx.Name "Update") N w

/-- The method `PgxPool.Read` (lines 121-149). -/
def PgxPool.Read (pgx : PgxPool) (k : Sqlx) (env : Env σ) (N : Nat) (w : World σ) : World σ :=
  let r := NewModel env w
  let m := { r.1 with Id := 1 }
  let w := execReport env k.sqlxInsertSQL (insertArgs m) pgx.Name "Read" r.2
  let w := ReportAllocs w
  let w := ResetTimer w
  benchLoop (queryRowReport env k.sqlxSelectSQL [.int 1] pgx.Name "Read") N w

/-- The cursor `rows` that `pgx.conn.Query` returns: never nil, the error
cursor when the query failed. -/
def pgxRows : Except String Rows → Rows
  | .ok rows => rows
  | .error e => errRows e

/-- One timed iteration of `PgxPool.ReadSlice` (lines 164-190). -/
def PgxPool.readSliceBody (pgx : PgxPool) (k : Sqlx) (env : Env σ) (w : World σ) : Run σ :=
  let ms := List.replicate 100 (default : Model)
  let x := connQuery env k.sqlxSelectMultiSQL w
  let rows := pgxRows x.1
  let w := ifErr pgx.Name "ReadSlice" (errOf x.1) x.2
  let s := scanRows pgx.Name rows.pending 0 ms w
  match s.panic with
  | some p => ⟨s.world, some p⟩
  | none =>
    let w := s.world.emit (.rowsErr rows.err)
    let w := ifErr pgx.Name "ReadSlice" rows.err w
    let w := w.emit (.rowsClose none)
    ⟨w, none⟩

/-- The method `PgxPool.ReadSlice` (lines 151-192). -/
def PgxPool.ReadSlice (pgx : PgxPool) (k : Sqlx) (env : Env σ) (N : Nat) (w : World σ) : Run σ :=
  let r := NewModel env w
  let m := r.1
  let w := benchLoop (execReport env k.sqlxInsertSQL (insertArgs m) pgx.Name "ReadSlice") 100 r.2
  let w := ReportAllocs w
  let w := ResetTimer w
  benchLoopP (PgxPool.readSliceBody pgx k env) N w

/-! ## Reading a trace -/

/-- The answers of `n` successive calls of `step`, starting in state `s`. -/
def answers {α : Type} (step : σ → α × σ) : Nat → σ → List α
  | 0, _ => []
  | n + 1, s => (step s).1 :: answers step n (step s).2

/-- The state of the environment after `n` successive calls of `step`. -/
def stateAfter {α : Type} (step : σ → α × σ) : Nat → σ → σ
  | 0, s => s
  | n + 1, s => stateAfter step n (step s).2

/-- The answers a run gets to see: those up to and including the first on
which the loop body panics. -/
def uptoPanic {α : Type} (panicOf : α → Option String) : List α → List α
  | [] => []
  | a :: as =>
    match panicOf a with
    | some _ => [a]
    | none => a :: uptoPanic panicOf as

/-- The panic that ends a run over the given answers, if any. -/
def firstPanic {α : Type} (panicOf : α → Option String) : List α → Option String
  | [] => none
  | a :: as =>
    match panicOf a with
    | some p => some p
    | none => firstPanic panicOf as

/-- The events of one iteration `err := call; if err != nil { SetError }`. -/
def callBlock (c : Call) (orm method : String) (err : Option String) : List Event :=
  match err with
  | some e => [.call c (some e), .setError orm method e]
  | none => [.call c none]

/-- The events of successive iterations `err := call; if err != nil { SetError }`
whose calls returned `errs`. -/
def writeEvents (c : Call) (orm method : String) (errs : List (Option String)) : List Event :=
  (errs.map (callBlock c orm method)).flatten

/-- The answers `err` of `n` successive `Exec` of one statement. -/
def execErrs (env : Env σ) (sql : String) (args : List Value) (n : Nat) (db : σ) :
    List (Option String) :=
  answers (env.exec sql args) n db

/-- The state of the environment after `n` successive `Exec` of one statement. -/
def execState (env : Env σ) (sql : String) (args : List Value) (n : Nat) (db : σ) : σ :=
  stateAfter (env.exec sql args) n db

/-- The single-row query as a step returning `err`. -/
def queryRowStep (env : Env σ) (sql : String) (args : List Value) (db : σ) :
    Option String × σ :=
  (errOf (env.queryRow sql args db).1, (env.queryRow sql args db).2)

/-- The events after the first `ResetTimer`: the measured window. -/
def timed (tr : List Event) : List Event :=
  (tr.dropWhile fun e => e ≠ Event.resetTimer).drop 1

/-- The calls on the connection in a trace, each with the error it returned. -/
def attempts (tr : List Event) : List (Call × Option String) :=
  tr.filterMap fun e => match e with
    | .call c err => some (c, err)
    | _ => none

/-- The calls on the connection in a trace. -/
def calls (tr : List Event) : List Call := (attempts tr).map Prod.fst

/-- The reports made to the error sink in a trace. -/
def reports (tr : List Event) : List (String × String × String) :=
  tr.filterMap fun e => match e with
    | .setError orm method err => some (orm, method, err)
    | _ => none

/-- The reports owed for the failed calls of a trace under a strategy name
and an operation label: one per call that returned an error. -/
def failures (orm method : String) (tr : List Event) : List (String × String × String) :=
  (attempts tr).filterMap fun a => a.2.map fun e => (orm, method, e)

/-- What the measurement discipline orders: record syntheses, the two harness
calls, and the calls on the connection. -/
inductive Mark where
  | newModel
  | reportAllocs
  | resetTimer
  | call (c : Call)
  deriving DecidableEq, Repr

/-- The mark of an event, if it is one the measurement discipline orders. -/
def Event.mark : Event → Option Mark
  | .newModel => some .newModel
  | .reportAllocs => some .reportAllocs
  | .resetTimer => some .resetTimer
  | .call c _ => some (.call c)
  | _ => none

/-- The marks of a trace, in order. -/
def marks (tr : List Event) : List Mark := tr.filterMap Event.mark

/-- A measured window of exactly `N` calls in which every failed call is
reported once, right after it, under the strategy name `orm` and the label
`method`, and nothing else is reported. -/
def WriteLoop (orm method : String) (N : Nat) (tr : List Event) : Prop :=
  (attempts tr).length = N ∧ reports tr = failures orm method tr ∧
    ∃ (c : Call) (errs : List (Option String)),
      errs.length = N ∧ tr = writeEvents c orm method errs

/-- The indices at which a scanned record was stored in the result buffer. -/
def scans (tr : List Event) : List Nat :=
  tr.filterMap fun e => match e with
    | .rowsScan j _ => some j
    | _ => none

/-- The events of the scan loop of `ReadSlice` over the rows a cursor yields,
from index `j` with a buffer of `len` records. -/
def scanEvents (orm : String) : List (Except String Model) → Nat → Nat → List Event
  | [], _, _ => [.rowsNext false]
  | r :: rest, j, len =>
    if j < len then
      match r with
      | .ok _ => [.rowsNext true, .rowsScan j none] ++ scanEvents orm rest (j + 1) len
      | .error e =>
        [.rowsNext true, .rowsScan j (some e), .setError orm "ReadSlice" e]
          ++ scanEvents orm rest (j + 1) len
    else [.rowsNext true]

/-- The events a completed iteration of `ReadSlice` adds after its query, on
a cursor `rows`; `close` is the error of closing it (the pooled driver
returns none). -/
def cursorEvents (orm : String) (rows : Rows) (close : Option String) : List Event :=
  scanEvents orm rows.pending 0 100
    ++ [.rowsErr rows.err] ++ (rows.err.elim [] fun e => [.setError orm "ReadSlice" e])
    ++ [.rowsClose close] ++ (close.elim [] fun e => [.setError orm "ReadSlice" e])

/-- The events of one iteration of `PgxPool.ReadSlice` whose query answered
`ans`. -/
def pgxReadEvents (sql : String) (ans : Except String Rows) : List Event :=
  callBlock (.query sql) "pgx_pool" "ReadSlice" (errOf ans)
    ++ cursorEvents "pgx_pool" (pgxRows ans) none

/-- The events of one iteration of `Raw.ReadSlice` whose query answered
`ans`: with a cursor the iteration completes; with an error it reports the
error and stops at the panic. -/
def rawReadEvents : Except String Rows → List Event
  | .ok rows => Event.call (.query rawSelectMultiSQL) none :: cursorEvents "raw" rows rows.closeErr
  | .error e => [.call (.query rawSelectMultiSQL) (some e), .setError "raw" "ReadSlice" e]

/-- The panic of one iteration of `Raw.ReadSlice` whose query answered `ans`. -/
def rawReadPanic : Except String Rows → Option String
  | .ok _ => none
  | .error _ => some "nil pointer dereference"

/-- Whether an answer is a cursor. -/
def isCursor : Except String Rows → Bool
  | .ok _ => true
  | .error _ => false

/-! ## A backing store -/

/-- A row of `models` from its seven values; none if a value is ill-typed. -/
def toModel (id : Int) : List Value → Option Model
  | [.str n, .str t, .str f, .str w, .int a, .bool r, .int c] => some ⟨id, n, t, f, w, a, r, c⟩
  | _ => none

/-- Appends the rows it is given, each under the next identifier; none if a
row is ill-typed. -/
def storeAppend : List Model → List (List Value) → Option (List Model)
  | s, [] => some s
  | s, row :: rows =>
    match toModel (s.length + 1) row with
    | none => none
    | some m => storeAppend (s ++ [m]) rows

/-- The store after `n` single inserts of the record `gen`, each row under
the next identifier. -/
def appendCopies (gen : Model) : Nat → List Model → List Model
  | 0, s => s
  | n + 1, s => appendCopies gen n (s ++ [{ gen with Id := s.length + 1 }])

/-- The values bound to the placeholders of a tuple: `$p` is `args[p-1]`. -/
def bindTuple (args : List Value) : List Nat → Option (List Value)
  | [] => some []
  | p :: ps =>
    if p = 0 then none
    else
      match args.get? (p - 1), bindTuple args ps with
      | some v, some vs => some (v :: vs)
      | _, _ => none

/-- The rows of a multi-row insert: one per value tuple. -/
def bindRows (args : List Value) : List (List Nat) → Option (List (List Value))
  | [] => some []
  | t :: ts =>
    match bindTuple args t, bindRows args ts with
    | some r, some rs => some (r :: rs)
    | _, _ => none

/-- The store executing a statement: it understands inserts into `models`
(any number of value tuples) and rejects every other statement. -/
def storeExec (sql : String) (args : List Value) (s : List Model) : Option String × List Model :=
  match valueTuples sql with
  | none => (some "unsupported statement", s)
  | some tuples =>
    match bindRows args tuples with
    | none => (some "missing argument", s)
    | some rows =>
      match storeAppend s rows with
      | none => (some "ill-typed row", s)
      | some s1 => (none, s1)

/-- The store executing a bulk copy. -/
def storeCopyFrom (rows : List (List Value)) (s : List Model) : Option String × List Model :=
  match storeAppend s rows with
  | none => (some "ill-typed row", s)
  | some s1 => (none, s1)

/-- An environment over a store of rows: the synthesiser returns `gen`, writes
append rows, reads answer from the rows held. -/
def storeEnv (gen : Model) : Env (List Model) where
  newModel s := (gen, s)
  exec := storeExec
  copyFrom _ _ rows s := storeCopyFrom rows s
  queryRow _ args s :=
    match args with
    | [.int id] =>
      match s.find? fun m => m.Id = id with
      | some m => (.ok m, s)
      | none => (.error "no rows in result set", s)
    | _ => (.error "bad arguments", s)
  query _ s := (.ok ⟨((s.filter fun m => 0 < m.Id).take 100).map Except.ok, none, none⟩, s)

/-- The marks of a run that synthesises `syn` records, makes `seeds` seeding
calls, calls `ReportAllocs` and `ResetTimer`, and then makes `n` measured
calls. -/
def shape (syn seeds : Nat) (seed : Call) (n : Nat) (measured : Call) : List Mark :=
  List.replicate syn Mark.newModel ++ (List.replicate seeds (Mark.call seed)
    ++ ([Mark.reportAllocs, Mark.resetTimer] ++ List.replicate n (Mark.call measured)))

/-- A scripted environment: the state counts the calls answered so far, the
`i`-th call fails as `execErr i` says, the `i`-th multi-row query answers
`queryAns i`. -/
def scriptEnv (gen : Model) (execErr : Nat → Option String)
    (queryAns : Nat → Except String Rows) : Env Nat where
  newModel s := (gen, s)
  exec _ _ s := (execErr s, s + 1)
  copyFrom _ _ _ s := (execErr s, s + 1)
  queryRow _ _ s := ((match execErr s with | some e => .error e | none => .ok gen), s + 1)
  query _ s := (queryAns s, s + 1)

/-- The errors a completed iteration of `ReadSlice` owes a report for, on a
cursor `rows` closed with the error `close` and a buffer of 100 records: the
failed scans among the first 100 rows, the error of the cursor, the error of
closing it. -/
def cursorErrors (rows : Rows) (close : Option String) : List String :=
  (rows.pending.take 100).filterMap errOf ++ rows.err.toList ++ close.toList

/-! ## Sample inputs -/

/-- A record as the synthesiser hands it out: the identifier, which the
backend assigns on creation, is still the zero value. -/
def sampleModel : Model :=
  ⟨0, "Orm Benchmark", "Just a Benchmark for fun", "99909990", "http://example.org", 100, true,
    1000⟩

/-- Sample values of the constants of the pooled strategy: the statement
texts of `raw.go` and the seven columns. -/
def sampleSqlx : Sqlx :=
  ⟨rawInsertSQL, rawUpdateSQL, rawSelectSQL, rawSelectMultiSQL, Field.all.map Field.column⟩

/-- A configuration as the parser hands it out, before `Init` has touched it:
no TLS settings, no run-time parameters, the default execution mode and pool
bounds. -/
def sampleConfig : Config := ⟨none, [], .CacheStatement, 4, 0, 0, 0⟩

/-- A cursor over no rows, without errors. -/
def noRows : Rows := ⟨[], none, none⟩

/-- A backend on which every write succeeds and exactly one multi-row query
fails: the one that is the 101st call, that is the first query after the 100
seeding inserts of `ReadSlice`. -/
def lostOnce : Env Nat :=
  scriptEnv sampleModel (fun _ => none)
    (fun i => if i = 100 then .error "connection lost" else .ok noRows)

/-- A backend on which every call succeeds and every multi-row query returns
the cursor `rows`. -/
def alwaysOk (gen : Model) (rows : Rows) : Env Nat :=
  scriptEnv gen (fun _ => none) (fun _ => .ok rows)

/-- The argument lists bound to the statements executed in a trace. -/
def boundArgs (tr : List Event) : List (List Value) :=
  (calls tr).filterMap fun c => match c with
    | .exec _ args => some args
    | _ => none

/-- A cursor that yields 101 rows, one more than the limit. -/
def manyRows : Rows := ⟨List.replicate 101 (.ok sampleModel), none, none⟩

/-! ## The hand-assembled statement equals its reference definition -/

theorem intercalate_go_eq (sep acc : String) (l : List String) :
    String.intercalate.go acc sep l = acc ++ String.intercalate.go "" sep l := by
  induction l generalizing acc with
  | nil => simp [String.intercalate.go]
  | cons a l ih =>
    simp only [String.intercalate.go]
    rw [ih, ih ("" ++ sep ++ a)]
    simp [String.append_assoc]

theorem intercalate_cons_cons (sep a b : String) (l : List String) :
    sep.intercalate (a :: b :: l) = a ++ (sep ++ sep.intercalate (b :: l)) := by
  simp only [String.intercalate, String.intercalate.go]
  rw [intercalate_go_eq, intercalate_go_eq sep b]
  simp [String.append_assoc]

theorem range_seven : List.range 7 = [0, 1, 2, 3, 4, 5, 6] := by decide

/-- One pass of the outer loop appends the reference tuple of `i`, followed by
a comma unless `i` is 99, and advances the counter by seven. -/
theorem valuesStep_eq (v : String) (i : Nat) :
    valuesStep (v, 7 * i + 1) i
      = (v ++ (specTuple i ++ if i ≠ 99 then "," else ""), 7 * (i + 1) + 1) := by
  unfold valuesStep specTuple
  rw [range_seven]
  by_cases h : i = 99
  · subst h
    simp [hogeStep, String.intercalate, String.intercalate.go]
    apply String.ext
    simp [List.append_assoc]
  · simp [hogeStep, String.intercalate, String.intercalate.go, h]
    refine ⟨?_, by omega⟩
    apply String.ext
    simp [List.append_assoc]

/-- The outer loop over the indices `s .. s+m-1`, none of them 99. -/
theorem foldl_valuesStep (m : Nat) : ∀ (s : Nat) (v : String), s + m ≤ 99 →
    (List.range' s m).foldl valuesStep (v, 7 * s + 1)
      = (v ++ (List.range' s m).foldr (fun i acc => specTuple i ++ "," ++ acc) "",
          7 * (s + m) + 1) := by
  induction m with
  | zero => intro s v _; simp
  | succ m ih =>
    intro s v h
    have hs : s ≠ 99 := by omega
    rw [List.range'_succ, List.foldl_cons, valuesStep_eq, ih (s + 1) _ (by omega)]
    simp [hs, String.append_assoc]
    omega

/-- Joining with commas is appending a comma to every tuple but the last. -/
theorem intercalate_specTuple (m : Nat) : ∀ s : Nat,
    ",".intercalate ((List.range' s (m + 1)).map specTuple)
      = (List.range' s m).foldr (fun i acc => specTuple i ++ "," ++ acc) ""
          ++ specTuple (s + m) := by
  induction m with
  | zero => intro s; simp [String.intercalate, String.intercalate.go]
  | succ m ih =>
    intro s
    rw [List.range'_succ s (m + 1), List.range'_succ (s + 1) m, List.map_cons, List.map_cons,
      intercalate_cons_cons, ← List.map_cons, ← List.range'_succ, ih (s + 1),
      List.range'_succ s m]
    simp [String.append_assoc, Nat.add_assoc, Nat.add_comm 1 m]

theorem insertMultiValuesSQL_eq :
    insertMultiValuesSQL = ",".intercalate ((List.range 100).map specTuple) := by
  have hr : List.range 100 = List.range' 0 99 ++ [99] := by decide
  unfold insertMultiValuesSQL
  rw [List.range_eq_range', intercalate_specTuple 99 0, ← List.range_eq_range', hr,
    List.foldl_append]
  have h := foldl_valuesStep 99 0 "" (by omega)
  simp only [Nat.mul_zero, Nat.zero_add] at h
  rw [h]
  have h2 := valuesStep_eq
    ("" ++ (List.range' 0 99).foldr (fun i acc => specTuple i ++ "," ++ acc) "") 99
  simp only [List.foldl_cons, List.foldl_nil]
  rw [show 7 * 99 + 1 = 7 * 99 + 1 from rfl] at h2
  rw [h2]
  simp

/-- The statement of `Raw.InsertMulti` is the reference statement. -/
theorem insertMultiQuery_eq : insertMultiQuery = specInsertMultiQuery := by
  unfold insertMultiQuery specInsertMultiQuery
  rw [insertMultiValuesSQL_eq]

/-! ## Reading the placeholders back -/

theorem digitChar_spec (d : Nat) (h : d < 10) :
    (Nat.digitChar d).isDigit = true ∧ digitVal (Nat.digitChar d) = d := by
  interval_cases d <;> decide

/-- A reader that consumes decimal digits reads the digits of `n` as `n`. -/
theorem read_toDigitsCore {β : Type} (f : List Char → Nat → β)
    (hf : ∀ c cs n, c.isDigit = true → f (c :: cs) n = f cs (10 * n + digitVal c))
    (fuel : Nat) : ∀ (n : Nat) (ds rest : List Char), n < fuel →
      f (Nat.toDigitsCore 10 fuel n ds ++ rest) 0 = f (ds ++ rest) n := by
  induction fuel with
  | zero => intro n ds rest h; omega
  | succ fuel ih =>
    intro n ds rest h
    have hd := digitChar_spec (n % 10) (Nat.mod_lt _ (by omega))
    unfold Nat.toDigitsCore
    by_cases h0 : n / 10 = 0
    · simp only [h0, if_true, List.cons_append]
      rw [hf _ _ _ hd.1, hd.2]
      have : n % 10 = n := Nat.mod_eq_of_lt (by omega)
      simp [this]
    · simp only [h0, if_false]
      rw [ih (n / 10) _ rest (by omega), List.cons_append, hf _ _ _ hd.1, hd.2]
      congr 1
      omega

theorem read_itoa {β : Type} (f : List Char → Nat → β)
    (hf : ∀ c cs n, c.isDigit = true → f (c :: cs) n = f cs (10 * n + digitVal c))
    (n : Nat) (rest : List Char) : f ((itoa n).data ++ rest) 0 = f rest n := by
  have h := read_toDigitsCore f hf (n + 1) n [] rest (by omega)
  simpa [itoa, Nat.repr, Nat.toDigits, List.asString] using h

theorem scanPlaceholders_itoa (n : Nat) (rest : List Char) :
    scanPlaceholders ((itoa n).data ++ rest) (some 0) = scanPlaceholders rest (some n) :=
  read_itoa (fun cs k => scanPlaceholders cs (some k))
    (fun c cs k hc => by simp [scanPlaceholders, hc]) n rest

theorem scanPlaceholders_comma (n : Nat) (rest : List Char) :
    scanPlaceholders ('$' :: ((itoa n).data ++ ',' :: rest)) none
      = n :: scanPlaceholders rest none := by
  show scanPlaceholders ((itoa n).data ++ (',' :: rest)) (some 0) = _
  rw [scanPlaceholders_itoa]
  rfl

theorem scanPlaceholders_close (n : Nat) (rest : List Char) :
    scanPlaceholders ('$' :: ((itoa n).data ++ ')' :: rest)) none
      = n :: scanPlaceholders rest none := by
  show scanPlaceholders ((itoa n).data ++ (')' :: rest)) (some 0) = _
  rw [scanPlaceholders_itoa]
  rfl

/-- The text of a reference tuple as a list of characters. -/
theorem specTuple_data (i : Nat) (rest : List Char) :
    (specTuple i).data ++ rest
      = '(' :: '$' :: ((itoa (7 * i + 1)).data ++ ',' ::
          '$' :: ((itoa (7 * i + 2)).data ++ ',' ::
          '$' :: ((itoa (7 * i + 3)).data ++ ',' ::
          '$' :: ((itoa (7 * i + 4)).data ++ ',' ::
          '$' :: ((itoa (7 * i + 5)).data ++ ',' ::
          '$' :: ((itoa (7 * i + 6)).data ++ ',' ::
          '$' :: ((itoa (7 * i + 7)).data ++ ')' :: rest))))))) := by
  unfold specTuple
  rw [range_seven]
  simp [String.intercalate, String.intercalate.go]

/-- The placeholders of a reference tuple are `7i+1 .. 7i+7`. -/
theorem scanPlaceholders_specTuple (i : Nat) (rest : List Char) :
    scanPlaceholders ((specTuple i).data ++ rest) none
      = [7 * i + 1, 7 * i + 2, 7 * i + 3, 7 * i + 4, 7 * i + 5, 7 * i + 6, 7 * i + 7]
          ++ scanPlaceholders rest none := by
  rw [specTuple_data]
  show scanPlaceholders ('$' :: _) none = _
  simp only [scanPlaceholders_comma, scanPlaceholders_close, List.cons_append, List.nil_append]

theorem scanPlaceholders_tuples (l : List Nat) (rest : List Char) :
    scanPlaceholders ((",".intercalate (l.map specTuple)).data ++ rest) none
      = l.foldr (fun i acc =>
          [7 * i + 1, 7 * i + 2, 7 * i + 3, 7 * i + 4, 7 * i + 5, 7 * i + 6, 7 * i + 7] ++ acc)
          (scanPlaceholders rest none) := by
  induction l with
  | nil => simp [String.intercalate]
  | cons a l ih =>
    cases l with
    | nil =>
      simp only [List.map, String.intercalate, String.intercalate.go, List.foldr]
      rw [scanPlaceholders_specTuple]
    | cons b l =>
      rw [List.map_cons, List.map_cons, intercalate_cons_cons, String.data_append,
        String.data_append, List.append_assoc, List.append_assoc, scanPlaceholders_specTuple,
        List.foldr_cons]
      congr 1

theorem scanPlaceholders_base (rest : List Char) :
    scanPlaceholders (rawInsertBaseSQL.data ++ rest) none = scanPlaceholders rest none := rfl

set_option maxRecDepth 100000 in
theorem tuple_numbers :
    (List.range 100).foldr (fun i acc =>
        [7 * i + 1, 7 * i + 2, 7 * i + 3, 7 * i + 4, 7 * i + 5, 7 * i + 6, 7 * i + 7] ++ acc) []
      = (List.range 700).map (· + 1) := by
  decide

/-- The placeholders of the statement of `Raw.InsertMulti` are 1, 2, ..., 700. -/
theorem placeholders_insertMultiQuery :
    placeholders insertMultiQuery = (List.range 700).map (· + 1) := by
  rw [insertMultiQuery_eq]
  unfold placeholders specInsertMultiQuery
  rw [String.data_append, scanPlaceholders_base]
  have h := scanPlaceholders_tuples (List.range 100) []
  rw [List.append_nil] at h
  rw [h]
  exact tuple_numbers

theorem placeholders_specTuple (i : Nat) :
    placeholders (specTuple i) = (List.range 7).map fun k => 7 * i + k + 1 := by
  have h := scanPlaceholders_specTuple i []
  rw [List.append_nil] at h
  unfold placeholders
  rw [h, range_seven]
  rfl

/-! ## Reading the value tuples back -/

theorem scanTuples_itoa (t : List Nat) (n : Nat) (rest : List Char) :
    scanTuples ((itoa n).data ++ rest) (some t) (some 0) = scanTuples rest (some t) (some n) :=
  read_itoa (fun cs k => scanTuples cs (some t) (some k))
    (fun c cs k hc => by simp [scanTuples, hc]) n rest

theorem scanTuples_comma (t : List Nat) (n : Nat) (rest : List Char) :
    scanTuples ('$' :: ((itoa n).data ++ ',' :: rest)) (some t) none
      = scanTuples rest (some (t ++ [n])) none := by
  show scanTuples ((itoa n).data ++ (',' :: rest)) (some t) (some 0) = _
  rw [scanTuples_itoa]
  rfl

theorem scanTuples_close (t : List Nat) (n : Nat) (rest : List Char) :
    scanTuples ('$' :: ((itoa n).data ++ ')' :: rest)) (some t) none
      = (t ++ [n]) :: scanTuples rest none none := by
  show scanTuples ((itoa n).data ++ (')' :: rest)) (some t) (some 0) = _
  rw [scanTuples_itoa]
  rfl

/-- A reference tuple reads back as the tuple of its seven placeholders. -/
theorem scanTuples_specTuple (i : Nat) (rest : List Char) :
    scanTuples ((specTuple i).data ++ rest) none none
      = [7 * i + 1, 7 * i + 2, 7 * i + 3, 7 * i + 4, 7 * i + 5, 7 * i + 6, 7 * i + 7]
          :: scanTuples rest none none := by
  rw [specTuple_data]
  show scanTuples ('$' :: _) (some []) none = _
  simp only [scanTuples_comma, scanTuples_close, List.cons_append, List.nil_append]

theorem scanTuples_tuples (l : List Nat) :
    scanTuples (",".intercalate (l.map specTuple)).data none none
      = l.map fun i =>
          [7 * i + 1, 7 * i + 2, 7 * i + 3, 7 * i + 4, 7 * i + 5, 7 * i + 6, 7 * i + 7] := by
  induction l with
  | nil => simp [String.intercalate, scanTuples]
  | cons a l ih =>
    cases l with
    | nil =>
      have h := scanTuples_specTuple a []
      rw [List.append_nil] at h
      simp only [List.map, String.intercalate, String.intercalate.go]
      rw [h]
      rfl
    | cons b l =>
      rw [List.map_cons, List.map_cons, intercalate_cons_cons, String.data_append,
        String.data_append, scanTuples_specTuple, List.map_cons]
      congr 1

theorem valueTuples_append (v : String) :
    valueTuples (rawInsertBaseSQL ++ v) = some (scanTuples v.data none none) := by
  unfold valueTuples
  rw [String.data_append, if_pos (List.isPrefixOf_iff_prefix.2 (List.prefix_append _ _)),
    List.drop_left]

/-- The statement of `Raw.InsertMulti` holds 100 value tuples, tuple `i` with
the placeholders `7i+1 .. 7i+7`. -/
theorem valueTuples_insertMultiQuery :
    valueTuples insertMultiQuery = some ((List.range 100).map fun i =>
      [7 * i + 1, 7 * i + 2, 7 * i + 3, 7 * i + 4, 7 * i + 5, 7 * i + 6, 7 * i + 7]) := by
  unfold insertMultiQuery
  rw [valueTuples_append, insertMultiValuesSQL_eq, scanTuples_tuples]

theorem valueTuples_rawInsertSQL : valueTuples rawInsertSQL = some [[1, 2, 3, 4, 5, 6, 7]] := by
  unfold rawInsertSQL
  rw [valueTuples_append]
  rfl

/-! ## The argument list of the multi-row insert -/

theorem setIndex_mid {α : Type} (pre mid : List α) (old v : α) (post : List α) (i : Nat)
    (h : i = pre.length + mid.length) :
    setIndex (pre ++ (mid ++ old :: post)) i v = some (pre ++ (mid ++ v :: post)) := by
  subst h
  unfold setIndex
  rw [if_pos (by simp)]
  rw [List.set_append_right _ _ (by omega), List.set_append_right _ _ (by omega)]
  simp

/-- One pass of `for j := range ms` fills the seven slots of record `j`. -/
theorem argsStep_fill (done : List Value) (j : Nat) (m : Model) (r : Nat)
    (h : done.length = j * 7) :
    argsStep 7 (some (done ++ List.replicate (r * 7 + 7) Value.null)) (j, m)
      = some ((done ++ insertArgs m) ++ List.replicate (r * 7) Value.null) := by
  have hrep : List.replicate (r * 7 + 7) Value.null
      = Value.null :: Value.null :: Value.null :: Value.null :: Value.null :: Value.null
          :: Value.null :: List.replicate (r * 7) Value.null := by
    simp [List.replicate_succ]
  rw [hrep]
  simp only [argsStep, Option.bind_eq_bind, Option.some_bind]
  have h0 := setIndex_mid done [] Value.null (Value.str m.Name)
    (Value.null :: Value.null :: Value.null :: Value.null :: Value.null :: Value.null :: List.replicate (r * 7) Value.null) (j * 7 + 0) (by simp [h])
  simp only [List.cons_append, List.nil_append] at h0
  rw [h0]
  simp only [Option.some_bind]
  have h1 := setIndex_mid done [Value.str m.Name] Value.null (Value.str m.Title)
    (Value.null :: Value.null :: Value.null :: Value.null :: Value.null :: List.replicate (r * 7) Value.null) (j * 7 + 1) (by simp [h])
  simp only [List.cons_append, List.nil_append] at h1
  rw [h1]
  simp only [Option.some_bind]
  have h2 := setIndex_mid done [Value.str m.Name, Value.str m.Title] Value.null (Value.str m.Fax)
    (Value.null :: Value.null :: Value.null :: Value.null :: List.replicate (r * 7) Value.null) (j * 7 + 2) (by simp [h])
  simp only [List.cons_append, List.nil_append] at h2
  rw [h2]
  simp only [Option.some_bind]
  have h3 := setIndex_mid done [Value.str m.Name, Value.str m.Title, Value.str m.Fax]
    Value.null (Value.str m.Web)
    (Value.null :: Value.null :: Value.null :: List.replicate (r * 7) Value.null) (j * 7 + 3) (by simp [h])
  simp only [List.cons_append, List.nil_append] at h3
  rw [h3]
  simp only [Option.some_bind]
  have h4 := setIndex_mid done [Value.str m.Name, Value.str m.Title, Value.str m.Fax, Value.str m.Web]
    Value.null (Value.int m.Age)
    (Value.null :: Value.null :: List.replicate (r * 7) Value.null) (j * 7 + 4) (by simp [h])
  simp only [List.cons_append, List.nil_append] at h4
  rw [h4]
  simp only [Option.some_bind]
  have h5 := setIndex_mid done [Value.str m.Name, Value.str m.Title, Value.str m.Fax, Value.str m.Web, Value.int m.Age]
    Value.null (Value.bool m.Right)
    (Value.null :: List.replicate (r * 7) Value.null) (j * 7 + 5) (by simp [h])
  simp only [List.cons_append, List.nil_append] at h5
  rw [h5]
  simp only [Option.some_bind]
  have h6 := setIndex_mid done [Value.str m.Name, Value.str m.Title, Value.str m.Fax, Value.str m.Web, Value.int m.Age, Value.bool m.Right]
    Value.null (Value.int m.Counter)
    (List.replicate (r * 7) Value.null) (j * 7 + 6) (by simp [h])
  simp only [List.cons_append, List.nil_append] at h6
  rw [h6]
  simp [insertArgs]

theorem foldl_argsStep (rest : List Model) : ∀ (j : Nat) (done : List Value),
    done.length = j * 7 →
    (rest.enumFrom j).foldl (argsStep 7)
        (some (done ++ List.replicate (rest.length * 7) Value.null))
      = some (done ++ (rest.map insertArgs).flatten) := by
  induction rest with
  | nil => intro j done _; simp
  | cons m rest ih =>
    intro j done h
    rw [List.enumFrom_cons, List.foldl_cons, List.length_cons, Nat.succ_mul,
      argsStep_fill done j m _ h, ih (j + 1) _ (by simp [h, insertArgs]; omega)]
    simp

/-- The argument list is the concatenation of the seven field values of each
record, in the order of the records; no indexed store panics. -/
theorem insertMultiArgs_eq (ms : List Model) :
    insertMultiArgs ms = some (ms.map insertArgs).flatten := by
  have h := foldl_argsStep ms 0 [] (by simp)
  simpa [insertMultiArgs, List.enum] using h

/-! ## Loops -/

theorem answers_length {α : Type} (step : σ → α × σ) (n : Nat) (s : σ) :
    (answers step n s).length = n := by
  induction n generalizing s with
  | zero => rfl
  | succ n ih => simp [answers, ih]

/-- A loop whose body makes one call and appends the events of its answer. -/
theorem benchLoop_eq {α : Type} (step : σ → α × σ) (blk : α → List Event)
    (body : World σ → World σ)
    (hbody : ∀ w, body w = ⟨(step w.db).2, w.trace ++ blk (step w.db).1⟩) :
    ∀ (n : Nat) (w : World σ), benchLoop body n w
      = ⟨stateAfter step n w.db, w.trace ++ ((answers step n w.db).map blk).flatten⟩ := by
  intro n
  induction n with
  | zero => intro w; simp [benchLoop, stateAfter, answers]
  | succ n ih =>
    intro w
    rw [benchLoop, ih, hbody]
    simp [stateAfter, answers, List.append_assoc]

/-- The same for a body that may panic: the run sees the answers up to the
first panic. -/
theorem benchLoopP_eq {α : Type} (step : σ → α × σ) (blk : α → List Event)
    (panicOf : α → Option String) (body : World σ → Run σ)
    (hbody : ∀ w, body w
      = ⟨⟨(step w.db).2, w.trace ++ blk (step w.db).1⟩, panicOf (step w.db).1⟩) :
    ∀ (n : Nat) (w : World σ),
      benchLoopP body n w
        = ⟨⟨stateAfter step (uptoPanic panicOf (answers step n w.db)).length w.db,
              w.trace ++ ((uptoPanic panicOf (answers step n w.db)).map blk).flatten⟩,
            firstPanic panicOf (answers step n w.db)⟩ := by
  intro n
  induction n with
  | zero => intro w; simp [benchLoopP, stateAfter, answers, uptoPanic, firstPanic]
  | succ n ih =>
    intro w
    rw [benchLoopP, hbody]
    simp only [answers, uptoPanic, firstPanic]
    cases hp : panicOf (step w.db).1 with
    | some p => simp [stateAfter]
    | none =>
      simp only [ih]
      simp [stateAfter, List.append_assoc]

theorem uptoPanic_none {α : Type} (l : List α) : uptoPanic (fun _ => none) l = l := by
  induction l with
  | nil => rfl
  | cons a l ih => simp [uptoPanic, ih]

theorem firstPanic_none {α : Type} (l : List α) : firstPanic (fun _ => none) l = none := by
  induction l with
  | nil => rfl
  | cons a l ih => simp [firstPanic, ih]

theorem drawModels_length (env : Env σ) (n : Nat) (w : World σ) :
    (drawModels env n w).1.length = n := by
  induction n generalizing w with
  | zero => rfl
  | succ n ih => simp [drawModels, ih]

theorem drawModels_trace (env : Env σ) (n : Nat) (w : World σ) :
    (drawModels env n w).2.trace = w.trace ++ List.replicate n Event.newModel := by
  induction n generalizing w with
  | zero => simp [drawModels]
  | succ n ih =>
    simp only [drawModels, ih, NewModel, List.replicate_succ]
    simp

/-- The multi-row or single-row write iteration. -/
theorem writeBody_eq (c : Call) (orm method : String) (err : Option String) (db : σ)
    (tr : List Event) :
    ifErr orm method err ⟨db, tr ++ [.call c err]⟩ = ⟨db, tr ++ callBlock c orm method err⟩ := by
  cases err <;> simp [ifErr, SetError, World.emit, callBlock]

theorem scanStep_eq (orm : String) (r : Except String Model) (j : Nat) (models : List Model)
    (w : World σ) (hj : j < models.length) :
    ∃ models1 : List Model, models1.length = models.length ∧
      scanStep orm r j models w
        = some (models1, ⟨w.db, w.trace ++ (match r with
            | .ok _ => [Event.rowsScan j none]
            | .error e => [Event.rowsScan j (some e), Event.setError orm "ReadSlice" e])⟩) := by
  have hget : models[j]? = some models[j] := List.getElem?_eq_getElem hj
  cases r with
  | ok m => exact ⟨models.set j m, by simp, by simp [scanStep, hget, World.emit]⟩
  | error e => exact ⟨models, rfl, by simp [scanStep, hget, World.emit, SetError]⟩

/-- The scan loop changes nothing but the trace, to which it appends
`scanEvents`; it never panics. -/
theorem scanRows_eq (orm : String) (rows : List (Except String Model)) :
    ∀ (j : Nat) (models : List Model) (w : World σ),
      (scanRows orm rows j models w).world
          = ⟨w.db, w.trace ++ scanEvents orm rows j models.length⟩
        ∧ (scanRows orm rows j models w).panic = none := by
  induction rows with
  | nil => intro j models w; simp [scanRows, scanEvents, World.emit]
  | cons r rows ih =>
    intro j models w
    rw [scanRows]
    simp only [scanEvents]
    by_cases hj : j < models.length
    · obtain ⟨models1, hlen, hstep⟩ := scanStep_eq orm r j models (w.emit (.rowsNext true)) hj
      simp only [hj, if_true, hstep]
      have := ih (j + 1) models1 ⟨w.db, (w.emit (.rowsNext true)).trace ++ (match r with
            | .ok _ => [Event.rowsScan j none]
            | .error e => [Event.rowsScan j (some e), Event.setError orm "ReadSlice" e])⟩
      rw [hlen] at this
      cases r <;> simpa [World.emit] using this
    · simp [hj, World.emit]

/-! ## One iteration of `ReadSlice` -/

theorem ifErr_trace (orm method : String) (err : Option String) (w : World σ) :
    ifErr orm method err w
      = ⟨w.db, w.trace ++ err.elim [] fun e => [Event.setError orm method e]⟩ := by
  cases err <;> simp [ifErr, SetError, World.emit]

/-- An iteration of `Raw.ReadSlice`: it completes when the query returned a
cursor, and panics on the nil cursor, after the report, when the query failed. -/
theorem raw_readSliceBody_eq (raw : Raw) (env : Env σ) (w : World σ) :
    Raw.readSliceBody raw env w
      = ⟨⟨(env.query rawSelectMultiSQL w.db).2,
            w.trace ++ rawReadEvents (env.query rawSelectMultiSQL w.db).1⟩,
          rawReadPanic (env.query rawSelectMultiSQL w.db).1⟩ := by
  unfold Raw.readSliceBody
  generalize hm : List.replicate 100 (default : Model) = models
  have hlen : models.length = 100 := by rw [← hm]; exact List.length_replicate ..
  cases h : (env.query rawSelectMultiSQL w.db).1 with
  | ok rows =>
    simp only [connQuery, h, errOf, scanRows_eq, ifErr_trace, World.emit, rawReadEvents,
      rawReadPanic, cursorEvents, Raw.Name, hlen, Option.elim, List.append_nil,
      List.append_assoc, List.singleton_append, List.cons_append, List.nil_append]
  | error e =>
    simp only [connQuery, h, errOf, ifErr_trace, Raw.Name, Option.elim, List.append_assoc,
      List.singleton_append, rawReadEvents, rawReadPanic]

/-- An iteration of `PgxPool.ReadSlice` always completes. -/
theorem pgx_readSliceBody_eq (pgx : PgxPool) (k : Sqlx) (env : Env σ) (w : World σ) :
    PgxPool.readSliceBody pgx k env w
      = ⟨⟨(env.query k.sqlxSelectMultiSQL w.db).2,
            w.trace ++ pgxReadEvents k.sqlxSelectMultiSQL
              (env.query k.sqlxSelectMultiSQL w.db).1⟩, none⟩ := by
  unfold PgxPool.readSliceBody
  generalize hm : List.replicate 100 (default : Model) = models
  have hlen : models.length = 100 := by rw [← hm]; exact List.length_replicate ..
  simp only [connQuery, scanRows_eq, writeBody_eq, ifErr_trace, World.emit, pgxReadEvents,
    cursorEvents, PgxPool.Name, hlen, Option.elim, List.append_nil, List.append_assoc,
    List.singleton_append, List.cons_append, List.nil_append]
  generalize errOf (env.query k.sqlxSelectMultiSQL w.db).1 = err
  cases err <;> simp [callBlock]

/-! ## The trace of each timed operation -/

theorem execReport_eq (env : Env σ) (sql : String) (args : List Value) (orm method : String)
    (w : World σ) :
    execReport env sql args orm method w
      = ⟨(env.exec sql args w.db).2,
          w.trace ++ callBlock (.exec sql args) orm method (env.exec sql args w.db).1⟩ :=
  writeBody_eq _ _ _ _ _ _

theorem copyReport_eq (env : Env σ) (table columns : List String) (rows : List (List Value))
    (orm method : String) (w : World σ) :
    copyReport env table columns rows orm method w
      = ⟨(env.copyFrom table columns rows w.db).2,
          w.trace ++ callBlock (.copyFrom table columns rows) orm method
            (env.copyFrom table columns rows w.db).1⟩ :=
  writeBody_eq _ _ _ _ _ _

theorem queryRowReport_eq (env : Env σ) (sql : String) (args : List Value) (orm method : String)
    (w : World σ) :
    queryRowReport env sql args orm method w
      = ⟨(queryRowStep env sql args w.db).2,
          w.trace ++ callBlock (.queryRow sql args) orm method
            (queryRowStep env sql args w.db).1⟩ :=
  writeBody_eq _ _ _ _ _ _

theorem execLoop_eq (env : Env σ) (sql : String) (args : List Value) (orm method : String)
    (n : Nat) (w : World σ) :
    benchLoop (execReport env sql args orm method) n w
      = ⟨execState env sql args n w.db,
          w.trace ++ writeEvents (.exec sql args) orm method (execErrs env sql args n w.db)⟩ :=
  benchLoop_eq (env.exec sql args) (callBlock (.exec sql args) orm method) _
    (execReport_eq env sql args orm method) n w

theorem copyLoop_eq (env : Env σ) (table columns : List String) (rows : List (List Value))
    (orm method : String) (n : Nat) (w : World σ) :
    benchLoop (copyReport env table columns rows orm method) n w
      = ⟨stateAfter (env.copyFrom table columns rows) n w.db,
          w.trace ++ writeEvents (.copyFrom table columns rows) orm method
            (answers (env.copyFrom table columns rows) n w.db)⟩ :=
  benchLoop_eq (env.copyFrom table columns rows) (callBlock (.copyFrom table columns rows) orm
    method) _ (copyReport_eq env table columns rows orm method) n w

theorem queryRowLoop_eq (env : Env σ) (sql : String) (args : List Value) (orm method : String)
    (n : Nat) (w : World σ) :
    benchLoop (queryRowReport env sql args orm method) n w
      = ⟨stateAfter (queryRowStep env sql args) n w.db,
          w.trace ++ writeEvents (.queryRow sql args) orm method
            (answers (queryRowStep env sql args) n w.db)⟩ :=
  benchLoop_eq (queryRowStep env sql args) (callBlock (.queryRow sql args) orm method) _
    (queryRowReport_eq env sql args orm method) n w

theorem raw_Insert_eq (raw : Raw) (env : Env σ) (N : Nat) (w : World σ) :
    Raw.Insert raw env N w
      = ⟨execState env rawInsertSQL (insertArgs (env.newModel w.db).1) N (env.newModel w.db).2,
          w.trace ++ ([.newModel, .reportAllocs, .resetTimer] ++
            writeEvents (.exec rawInsertSQL (insertArgs (env.newModel w.db).1)) "raw" "Insert"
            (execErrs env rawInsertSQL (insertArgs (env.newModel w.db).1) N (env.newModel w.db).2))⟩ := by
  simp only [Raw.Insert, execLoop_eq, NewModel, ReportAllocs, ResetTimer, World.emit,
    Raw.Name, List.append_assoc, List.singleton_append, List.cons_append, List.nil_append]

theorem pgx_Insert_eq (pgx : PgxPool) (k : Sqlx) (env : Env σ) (N : Nat) (w : World σ) :
    PgxPool.Insert pgx k env N w
      = ⟨execState env k.sqlxInsertSQL (insertArgs (env.newModel w.db).1) N (env.newModel w.db).2,
          w.trace ++ ([.newModel, .reportAllocs, .resetTimer] ++
            writeEvents (.exec k.sqlxInsertSQL (insertArgs (env.newModel w.db).1)) "pgx_pool" "Insert"
            (execErrs env k.sqlxInsertSQL (insertArgs (env.newModel w.db).1) N (env.newModel w.db).2))⟩ := by
  simp only [PgxPool.Insert, execLoop_eq, NewModel, ReportAllocs, ResetTimer, World.emit,
    PgxPool.Name, List.append_assoc, List.singleton_append, List.cons_append, List.nil_append]

theorem pgx_InsertMulti_eq (pgx : PgxPool) (k : Sqlx) (env : Env σ) (N : Nat)
    (w : World σ) :
    PgxPool.InsertMulti pgx k env N w
      = ⟨stateAfter (env.copyFrom ["models"] k.columns (PgxPool.insertMultiRows (env.newModel w.db).1)) N
            (env.newModel w.db).2,
          w.trace ++ ([.newModel, .reportAllocs, .resetTimer] ++
            writeEvents (.copyFrom ["models"] k.columns (PgxPool.insertMultiRows (env.newModel w.db).1))
              "pgx_pool" "InsertMulti"
              (answers (env.copyFrom ["models"] k.columns (PgxPool.insertMultiRows (env.newModel w.db).1)) N
                (env.newModel w.db).2))⟩ := by
  simp only [PgxPool.InsertMulti, copyLoop_eq, NewModel, ReportAllocs, ResetTimer, World.emit,
    PgxPool.Name, List.append_assoc, List.singleton_append, List.cons_append, List.nil_append]

theorem raw_Update_eq (raw : Raw) (env : Env σ) (N : Nat) (w : World σ) :
    Raw.Update raw env N w
      = ⟨execState env rawUpdateSQL (updateArgs (env.newModel w.db).1) N
            (env.exec rawInsertSQL (insertArgs (env.newModel w.db).1) (env.newModel w.db).2).2,
          w.trace ++ (Event.newModel ::
            (callBlock (.exec rawInsertSQL (insertArgs (env.newModel w.db).1)) "raw" "Update"
                (env.exec rawInsertSQL (insertArgs (env.newModel w.db).1) (env.newModel w.db).2).1
              ++ ([.reportAllocs, .resetTimer] ++
            writeEvents (.exec rawUpdateSQL (updateArgs (env.newModel w.db).1)) "raw" "Update"
              (execErrs env rawUpdateSQL (updateArgs (env.newModel w.db).1) N
                (env.exec rawInsertSQL (insertArgs (env.newModel w.db).1) (env.newModel w.db).2).2))))⟩ := by
  simp only [Raw.Update, execLoop_eq, execReport_eq, NewModel, ReportAllocs, ResetTimer, World.emit,
    Raw.Name, List.append_assoc, List.singleton_append, List.cons_append, List.nil_append]

theorem raw_Read_eq (raw : Raw) (env : Env σ) (N : Nat) (w : World σ) :
    Raw.Read raw env N w
      = ⟨stateAfter (queryRowStep env rawSelectSQL [.int 1]) N
            (env.exec rawInsertSQL (insertArgs (env.newModel w.db).1) (env.newModel w.db).2).2,
          w.trace ++ (Event.newModel ::
            (callBlock (.exec rawInsertSQL (insertArgs (env.newModel w.db).1)) "raw" "Read"
                (env.exec rawInsertSQL (insertArgs (env.newModel w.db).1) (env.newModel w.db).2).1
              ++ ([.reportAllocs, .resetTimer] ++
            writeEvents (.queryRow rawSelectSQL [.int 1]) "raw" "Read"
              (answers (queryRowStep env rawSelectSQL [.int 1]) N
                (env.exec rawInsertSQL (insertArgs (env.newModel w.db).1) (env.newModel w.db).2).2))))⟩ := by
  simp only [Raw.Read, queryRowLoop_eq, execReport_eq, NewModel, ReportAllocs, ResetTimer, World.emit,
    Raw.Name, List.append_assoc, List.singleton_append, List.cons_append, List.nil_append]

theorem pgx_Update_eq (pgx : PgxPool) (k : Sqlx) (env : Env σ) (N : Nat) (w : World σ) :
    PgxPool.Update pgx k env N w
      = ⟨execState env k.sqlxUpdateSQL (updateArgs { (env.newModel w.db).1 with Id := 1 }) N
            (env.exec k.sqlxInsertSQL (insertArgs { (env.newModel w.db).1 with Id := 1 }) (env.newModel w.db).2).2,
          w.trace ++ (Event.newModel ::
            (callBlock (.exec k.sqlxInsertSQL (insertArgs { (env.newModel w.db).1 with Id := 1 })) "pgx_pool" "Update"
                (env.exec k.sqlxInsertSQL (insertArgs { (env.newModel w.db).1 with Id := 1 }) (env.newModel w.db).2).1
              ++ ([.reportAllocs, .resetTimer] ++
            writeEvents (.exec k.sqlxUpdateSQL (updateArgs { (env.newModel w.db).1 with Id := 1 })) "pgx_pool" "Update"
              (execErrs env k.sqlxUpdateSQL (updateArgs { (env.newModel w.db).1 with Id := 1 }) N
                (env.exec k.sqlxInsertSQL (insertArgs { (env.newModel w.db).1 with Id := 1 }) (env.newModel w.db).2).2))))⟩ := by
  simp only [PgxPool.Update, execLoop_eq, execReport_eq, NewModel, ReportAllocs, ResetTimer, World.emit,
    PgxPool.Name, List.append_assoc, List.singleton_append, List.cons_append, List.nil_append]

theorem pgx_Read_eq (pgx : PgxPool) (k : Sqlx) (env : Env σ) (N : Nat) (w : World σ) :
    PgxPool.Read pgx k env N w
      = ⟨stateAfter (queryRowStep env k.sqlxSelectSQL [.int 1]) N
            (env.exec k.sqlxInsertSQL (insertArgs { (env.newModel w.db).1 with Id := 1 }) (env.newModel w.db).2).2,
          w.trace ++ (Event.newModel ::
            (callBlock (.exec k.sqlxInsertSQL (insertArgs { (env.newModel w.db).1 with Id := 1 })) "pgx_pool" "Read"
                (env.exec k.sqlxInsertSQL (insertArgs { (env.newModel w.db).1 with Id := 1 }) (env.newModel w.db).2).1
              ++ ([.reportAllocs, .resetTimer] ++
            writeEvents (.queryRow k.sqlxSelectSQL [.int 1]) "pgx_pool" "Read"
              (answers (queryRowStep env k.sqlxSelectSQL [.int 1]) N
                (env.exec k.sqlxInsertSQL (insertArgs { (env.newModel w.db).1 with Id := 1 }) (env.newModel w.db).2).2))))⟩ := by
  simp only [PgxPool.Read, queryRowLoop_eq, execReport_eq, NewModel, ReportAllocs, ResetTimer, World.emit,
    PgxPool.Name, List.append_assoc, List.singleton_append, List.cons_append, List.nil_append]

theorem raw_insertMultiBody_eq (raw : Raw) (env : Env σ) (ms : List Model) (w : World σ) :
    Raw.insertMultiBody raw env ms insertMultiValuesSQL w
      = ⟨⟨(env.exec insertMultiQuery (ms.map insertArgs).flatten w.db).2,
            w.trace ++ callBlock (.exec insertMultiQuery (ms.map insertArgs).flatten)
              "raw" "InsertMulti"
              (env.exec insertMultiQuery (ms.map insertArgs).flatten w.db).1⟩, none⟩ := by
  simp only [Raw.insertMultiBody, insertMultiArgs_eq, execReport_eq, Raw.Name, insertMultiQuery]

/-- The run of `Raw.InsertMulti`: it never panics. -/
theorem raw_InsertMulti_eq (raw : Raw) (env : Env σ) (N : Nat) (w : World σ) :
    Raw.InsertMulti raw env N w
      = ⟨⟨execState env insertMultiQuery ((drawModels env 100 w).1.map insertArgs).flatten N
            (drawModels env 100 w).2.db,
          w.trace ++ (List.replicate 100 Event.newModel ++ ([.reportAllocs, .resetTimer] ++
            writeEvents (.exec insertMultiQuery ((drawModels env 100 w).1.map insertArgs).flatten)
              "raw" "InsertMulti"
              (execErrs env insertMultiQuery ((drawModels env 100 w).1.map insertArgs).flatten N
                (drawModels env 100 w).2.db)))⟩, none⟩ := by
  simp only [Raw.InsertMulti,
    benchLoopP_eq
      (env.exec insertMultiQuery ((drawModels env 100 w).1.map insertArgs).flatten)
      (callBlock (.exec insertMultiQuery ((drawModels env 100 w).1.map insertArgs).flatten)
        "raw" "InsertMulti") (fun _ => none)
      (Raw.insertMultiBody raw env (drawModels env 100 w).1 insertMultiValuesSQL)
      (raw_insertMultiBody_eq raw env _),
    uptoPanic_none, firstPanic_none, answers_length, ReportAllocs, ResetTimer, World.emit,
    drawModels_trace, execState, execErrs, writeEvents, List.append_assoc,
    List.singleton_append, List.cons_append, List.nil_append]

/-- The run of `Raw.ReadSlice`: it sees the answers up to the first failed
query, and ends in the panic of that iteration. -/
theorem raw_ReadSlice_eq (raw : Raw) (env : Env σ) (N : Nat) (w : World σ) :
    Raw.ReadSlice raw env N w
      = ⟨⟨stateAfter (env.query rawSelectMultiSQL)
            (uptoPanic rawReadPanic (answers (env.query rawSelectMultiSQL) N
              (execState env rawInsertSQL (insertArgs (env.newModel w.db).1) 100
                (env.newModel w.db).2))).length
            (execState env rawInsertSQL (insertArgs (env.newModel w.db).1) 100
              (env.newModel w.db).2),
          w.trace ++ (Event.newModel ::
            (writeEvents (.exec rawInsertSQL (insertArgs (env.newModel w.db).1)) "raw" "ReadSlice"
                (execErrs env rawInsertSQL (insertArgs (env.newModel w.db).1) 100
                  (env.newModel w.db).2)
              ++ ([.reportAllocs, .resetTimer] ++
            ((uptoPanic rawReadPanic (answers (env.query rawSelectMultiSQL) N
              (execState env rawInsertSQL (insertArgs (env.newModel w.db).1) 100
                (env.newModel w.db).2))).map rawReadEvents).flatten)))⟩,
          firstPanic rawReadPanic (answers (env.query rawSelectMultiSQL) N
            (execState env rawInsertSQL (insertArgs (env.newModel w.db).1) 100
              (env.newModel w.db).2))⟩ := by
  simp only [Raw.ReadSlice, execLoop_eq,
    benchLoopP_eq (env.query rawSelectMultiSQL) rawReadEvents rawReadPanic
      (Raw.readSliceBody raw env) (raw_readSliceBody_eq raw env),
    NewModel, ReportAllocs, ResetTimer, World.emit, Raw.Name, List.append_assoc,
    List.singleton_append, List.cons_append, List.nil_append]

/-- The run of `PgxPool.ReadSlice`: it never panics. -/
theorem pgx_ReadSlice_eq (pgx : PgxPool) (k : Sqlx) (env : Env σ) (N : Nat) (w : World σ) :
    PgxPool.ReadSlice pgx k env N w
      = ⟨⟨stateAfter (env.query k.sqlxSelectMultiSQL) N
            (execState env k.sqlxInsertSQL (insertArgs (env.newModel w.db).1) 100
              (env.newModel w.db).2),
          w.trace ++ (Event.newModel ::
            (writeEvents (.exec k.sqlxInsertSQL (insertArgs (env.newModel w.db).1))
                "pgx_pool" "ReadSlice"
                (execErrs env k.sqlxInsertSQL (insertArgs (env.newModel w.db).1) 100
                  (env.newModel w.db).2)
              ++ ([.reportAllocs, .resetTimer] ++
            ((answers (env.query k.sqlxSelectMultiSQL) N
              (execState env k.sqlxInsertSQL (insertArgs (env.newModel w.db).1) 100
                (env.newModel w.db).2)).map (pgxReadEvents k.sqlxSelectMultiSQL)).flatten)))⟩,
          none⟩ := by
  simp only [PgxPool.ReadSlice, execLoop_eq,
    benchLoopP_eq (env.query k.sqlxSelectMultiSQL) (pgxReadEvents k.sqlxSelectMultiSQL)
      (fun _ => none) (PgxPool.readSliceBody pgx k env) (pgx_readSliceBody_eq pgx k env),
    uptoPanic_none, firstPanic_none, answers_length,
    NewModel, ReportAllocs, ResetTimer, World.emit, PgxPool.Name, List.append_assoc,
    List.singleton_append, List.cons_append, List.nil_append]

/-! ## Reading the traces -/

theorem timed_eq (pre post : List Event) (h : ∀ e ∈ pre, e ≠ Event.resetTimer) :
    timed (pre ++ Event.resetTimer :: post) = post := by
  unfold timed
  induction pre with
  | nil => simp [List.dropWhile]
  | cons a pre ih =>
    have ha : a ≠ Event.resetTimer := h a (by simp)
    simp only [List.cons_append, List.dropWhile_cons, ha, ne_eq, not_false_eq_true,
      decide_True, if_true]
    exact ih fun e he => h e (by simp [he])

theorem callBlock_ne (c : Call) (orm method : String) (err : Option String) :
    ∀ e ∈ callBlock c orm method err, e ≠ Event.resetTimer := by
  cases err <;> simp [callBlock]

theorem writeEvents_ne (c : Call) (orm method : String) (errs : List (Option String)) :
    ∀ e ∈ writeEvents c orm method errs, e ≠ Event.resetTimer := by
  intro e he
  simp only [writeEvents, List.mem_flatten, List.mem_map] at he
  obtain ⟨l, ⟨err, _, rfl⟩, hel⟩ := he
  exact callBlock_ne c orm method err e hel

theorem writeEvents_nil (c : Call) (orm method : String) :
    writeEvents c orm method [] = [] := rfl

theorem writeEvents_cons (c : Call) (orm method : String) (err : Option String)
    (errs : List (Option String)) :
    writeEvents c orm method (err :: errs)
      = callBlock c orm method err ++ writeEvents c orm method errs := by
  simp [writeEvents]

theorem attempts_append (a b : List Event) : attempts (a ++ b) = attempts a ++ attempts b := by
  simp [attempts, List.filterMap_append]

theorem reports_append (a b : List Event) : reports (a ++ b) = reports a ++ reports b := by
  simp [reports, List.filterMap_append]

theorem marks_append (a b : List Event) : marks (a ++ b) = marks a ++ marks b := by
  simp [marks, List.filterMap_append]

theorem scans_append (a b : List Event) : scans (a ++ b) = scans a ++ scans b := by
  simp [scans, List.filterMap_append]

theorem attempts_writeEvents (c : Call) (orm method : String) (errs : List (Option String)) :
    attempts (writeEvents c orm method errs) = errs.map fun e => (c, e) := by
  induction errs with
  | nil => rfl
  | cons err errs ih =>
    rw [writeEvents_cons, attempts_append, ih]
    cases err <;> simp [callBlock, attempts]

theorem reports_writeEvents (c : Call) (orm method : String) (errs : List (Option String)) :
    reports (writeEvents c orm method errs)
      = errs.filterMap fun err => err.map fun e => (orm, method, e) := by
  induction errs with
  | nil => rfl
  | cons err errs ih =>
    rw [writeEvents_cons, reports_append, ih]
    cases err <;> simp [callBlock, reports]

theorem failures_writeEvents (c : Call) (orm method : String) (errs : List (Option String)) :
    failures orm method (writeEvents c orm method errs)
      = errs.filterMap fun err => err.map fun e => (orm, method, e) := by
  unfold failures
  rw [attempts_writeEvents, List.filterMap_map]
  rfl

theorem marks_callBlock (c : Call) (orm method : String) (err : Option String) :
    marks (callBlock c orm method err) = [Mark.call c] := by
  cases err <;> simp [callBlock, marks, Event.mark]

theorem marks_writeEvents (c : Call) (orm method : String) (errs : List (Option String)) :
    marks (writeEvents c orm method errs) = List.replicate errs.length (Mark.call c) := by
  induction errs with
  | nil => rfl
  | cons err errs ih =>
    rw [writeEvents_cons, marks_append, ih, marks_callBlock]
    simp [List.replicate_succ]

theorem execErrs_length (env : Env σ) (sql : String) (args : List Value) (n : Nat) (db : σ) :
    (execErrs env sql args n db).length = n :=
  answers_length _ _ _

theorem timed_window (A W : List Event) (h : ∀ e ∈ A, e ≠ Event.resetTimer) :
    timed ([] ++ (A ++ ([Event.reportAllocs, Event.resetTimer] ++ W))) = W := by
  have := timed_eq (A ++ [Event.reportAllocs]) W (by
    intro e he
    rcases List.mem_append.1 he with h1 | h1
    · exact h e h1
    · simp at h1; simp [h1])
  simpa [List.append_assoc] using this

theorem newModel_cons_ne (A : List Event) (h : ∀ e ∈ A, e ≠ Event.resetTimer) :
    ∀ e ∈ Event.newModel :: A, e ≠ Event.resetTimer := by
  intro e he
  rcases List.mem_cons.1 he with h1 | h1
  · simp [h1]
  · exact h e h1

theorem replicate_newModel_ne (n : Nat) :
    ∀ e ∈ List.replicate n Event.newModel, e ≠ Event.resetTimer := by
  intro e he
  rw [(List.mem_replicate.1 he).2]
  simp

theorem WriteLoop_writeEvents (c : Call) (orm method : String) (errs : List (Option String))
    (N : Nat) (h : errs.length = N) : WriteLoop orm method N (writeEvents c orm method errs) :=
  ⟨by simp [attempts_writeEvents, h],
    by rw [reports_writeEvents, failures_writeEvents], c, errs, h, rfl⟩

theorem raw_Insert_timed (raw : Raw) (env : Env σ) (N : Nat) (db : σ) :
    timed (Raw.Insert raw env N ⟨db, []⟩).trace
      = writeEvents (.exec rawInsertSQL (insertArgs (env.newModel db).1)) "raw" "Insert"
          (execErrs env rawInsertSQL (insertArgs (env.newModel db).1) N (env.newModel db).2) := by
  rw [raw_Insert_eq]
  exact timed_window [Event.newModel] _ (by simp)

theorem pgx_Insert_timed (pgx : PgxPool) (k : Sqlx) (env : Env σ) (N : Nat) (db : σ) :
    timed (PgxPool.Insert pgx k env N ⟨db, []⟩).trace
      = writeEvents (.exec k.sqlxInsertSQL (insertArgs (env.newModel db).1)) "pgx_pool" "Insert"
          (execErrs env k.sqlxInsertSQL (insertArgs (env.newModel db).1) N
            (env.newModel db).2) := by
  rw [pgx_Insert_eq]
  exact timed_window [Event.newModel] _ (by simp)

theorem raw_InsertMulti_timed (raw : Raw) (env : Env σ) (N : Nat) (db : σ) :
    timed (Raw.InsertMulti raw env N ⟨db, []⟩).world.trace
      = writeEvents
          (.exec insertMultiQuery ((drawModels env 100 ⟨db, []⟩).1.map insertArgs).flatten)
          "raw" "InsertMulti"
          (execErrs env insertMultiQuery
            ((drawModels env 100 ⟨db, []⟩).1.map insertArgs).flatten N
            (drawModels env 100 ⟨db, []⟩).2.db) := by
  rw [raw_InsertMulti_eq]
  exact timed_window _ _ (replicate_newModel_ne 100)

theorem pgx_InsertMulti_timed (pgx : PgxPool) (k : Sqlx) (env : Env σ) (N : Nat) (db : σ) :
    timed (PgxPool.InsertMulti pgx k env N ⟨db, []⟩).trace
      = writeEvents (.copyFrom ["models"] k.columns (PgxPool.insertMultiRows (env.newModel db).1))
          "pgx_pool" "InsertMulti"
          (answers (env.copyFrom ["models"] k.columns
            (PgxPool.insertMultiRows (env.newModel db).1)) N (env.newModel db).2) := by
  rw [pgx_InsertMulti_eq]
  exact timed_window [Event.newModel] _ (by simp)

theorem raw_Update_timed (raw : Raw) (env : Env σ) (N : Nat) (db : σ) :
    timed (Raw.Update raw env N ⟨db, []⟩).trace
      = writeEvents (.exec rawUpdateSQL (updateArgs (env.newModel db).1)) "raw" "Update"
          (execErrs env rawUpdateSQL (updateArgs (env.newModel db).1) N
            (env.exec rawInsertSQL (insertArgs (env.newModel db).1) (env.newModel db).2).2) := by
  rw [raw_Update_eq]
  exact timed_window (Event.newModel :: _) _ (newModel_cons_ne _ (callBlock_ne _ _ _ _))

theorem pgx_Update_timed (pgx : PgxPool) (k : Sqlx) (env : Env σ) (N : Nat) (db : σ) :
    timed (PgxPool.Update pgx k env N ⟨db, []⟩).trace
      = writeEvents (.exec k.sqlxUpdateSQL (updateArgs { (env.newModel db).1 with Id := 1 }))
          "pgx_pool" "Update"
          (execErrs env k.sqlxUpdateSQL (updateArgs { (env.newModel db).1 with Id := 1 }) N
            (env.exec k.sqlxInsertSQL (insertArgs { (env.newModel db).1 with Id := 1 })
              (env.newModel db).2).2) := by
  rw [pgx_Update_eq]
  exact timed_window (Event.newModel :: _) _ (newModel_cons_ne _ (callBlock_ne _ _ _ _))

/-- C5: for every iteration count and every backend, the timed loops of
Insert, InsertMulti and Update of both strategies make exactly `N` write
attempts, whatever fails; each failed attempt is reported exactly once, right
after it, as (strategy name, operation label, error text), with the constant
names "raw" and "pgx_pool" of `Name()` and the label of the operation; no
other report is made. -/
theorem write_loops_report_each_failure (raw : Raw) (pgx : PgxPool) (k : Sqlx) (env : Env σ)
    (N : Nat) (db : σ) :
    Raw.Name raw = "raw" ∧ PgxPool.Name pgx = "pgx_pool"
      ∧ WriteLoop (Raw.Name raw) "Insert" N (timed (Raw.Insert raw env N ⟨db, []⟩).trace)
      ∧ (Raw.InsertMulti raw env N ⟨db, []⟩).panic = none
      ∧ WriteLoop (Raw.Name raw) "InsertMulti" N
          (timed (Raw.InsertMulti raw env N ⟨db, []⟩).world.trace)
      ∧ WriteLoop (Raw.Name raw) "Update" N (timed (Raw.Update raw env N ⟨db, []⟩).trace)
      ∧ WriteLoop (PgxPool.Name pgx) "Insert" N
          (timed (PgxPool.Insert pgx k env N ⟨db, []⟩).trace)
      ∧ WriteLoop (PgxPool.Name pgx) "InsertMulti" N
          (timed (PgxPool.InsertMulti pgx k env N ⟨db, []⟩).trace)
      ∧ WriteLoop (PgxPool.Name pgx) "Update" N
          (timed (PgxPool.Update pgx k env N ⟨db, []⟩).trace) := by
  refine ⟨rfl, rfl, ?_, ?_, ?_, ?_, ?_, ?_, ?_⟩
  · rw [raw_Insert_timed]
    exact WriteLoop_writeEvents _ _ _ _ _ (execErrs_length ..)
  · rw [raw_InsertMulti_eq]
  · rw [raw_InsertMulti_timed]
    exact WriteLoop_writeEvents _ _ _ _ _ (execErrs_length ..)
  · rw [raw_Update_timed]
    exact WriteLoop_writeEvents _ _ _ _ _ (execErrs_length ..)
  · rw [pgx_Insert_timed]
    exact WriteLoop_writeEvents _ _ _ _ _ (execErrs_length ..)
  · rw [pgx_InsertMulti_timed]
    exact WriteLoop_writeEvents _ _ _ _ _ (answers_length ..)
  · rw [pgx_Update_timed]
    exact WriteLoop_writeEvents _ _ _ _ _ (execErrs_length ..)

/-! ## The order of setup, timer and measured calls -/

theorem marks_scanEvents (orm : String) (rows : List (Except String Model)) :
    ∀ (j len : Nat), marks (scanEvents orm rows j len) = [] := by
  induction rows with
  | nil => intro j len; rfl
  | cons r rows ih =>
    intro j len
    simp only [scanEvents]
    by_cases hj : j < len
    · cases r with
      | ok m =>
        simp only [hj, if_true]
        rw [marks_append, ih]
        rfl
      | error e =>
        simp only [hj, if_true]
        rw [marks_append, ih]
        rfl
    · simp only [hj, if_false]
      rfl

theorem marks_cursorEvents (orm : String) (rows : Rows) (close : Option String) :
    marks (cursorEvents orm rows close) = [] := by
  unfold cursorEvents
  simp only [marks_append, marks_scanEvents]
  cases rows.err <;> cases close <;> simp [marks, Event.mark]

theorem marks_pgxReadEvents (sql : String) (a : Except String Rows) :
    marks (pgxReadEvents sql a) = [Mark.call (.query sql)] := by
  simp [pgxReadEvents, marks_append, marks_callBlock, marks_cursorEvents]

theorem marks_rawReadEvents (a : Except String Rows) :
    marks (rawReadEvents a) = [Mark.call (.query rawSelectMultiSQL)] := by
  cases a with
  | ok rows =>
    have := marks_cursorEvents "raw" rows rows.closeErr
    simp only [rawReadEvents]
    rw [← List.singleton_append, marks_append, this]
    rfl
  | error e => rfl

theorem marks_flatten_map {α : Type} (f : α → List Event) (c : Call)
    (h : ∀ a, marks (f a) = [Mark.call c]) (l : List α) :
    marks ((l.map f).flatten) = List.replicate l.length (Mark.call c) := by
  induction l with
  | nil => rfl
  | cons a l ih => simp [marks_append, h, ih, List.replicate_succ]

theorem marks_replicate_newModel (n : Nat) :
    marks (List.replicate n Event.newModel) = List.replicate n Mark.newModel := by
  induction n with
  | zero => rfl
  | succ n ih =>
    rw [List.replicate_succ, ← List.singleton_append, marks_append, ih]
    rfl

theorem marks_cons_newModel (tr : List Event) :
    marks (Event.newModel :: tr) = Mark.newModel :: marks tr := rfl

theorem marks_timer (tr : List Event) :
    marks ([Event.reportAllocs, Event.resetTimer] ++ tr)
      = [Mark.reportAllocs, Mark.resetTimer] ++ marks tr := rfl

theorem marks_timer3 (tr : List Event) :
    marks ([Event.newModel, Event.reportAllocs, Event.resetTimer] ++ tr)
      = [Mark.newModel, Mark.reportAllocs, Mark.resetTimer] ++ marks tr := rfl

/-- The run of `Raw.ReadSlice` makes as many measured queries as there are
answers up to the first failed one. -/
theorem raw_ReadSlice_marks (raw : Raw) (env : Env σ) (N : Nat) (db : σ) :
    marks (Raw.ReadSlice raw env N ⟨db, []⟩).world.trace
      = shape 1 100 (.exec rawInsertSQL (insertArgs (env.newModel db).1))
          (uptoPanic rawReadPanic (answers (env.query rawSelectMultiSQL) N
            (execState env rawInsertSQL (insertArgs (env.newModel db).1) 100
              (env.newModel db).2))).length
          (.query rawSelectMultiSQL) := by
  rw [raw_ReadSlice_eq]
  simp only [List.nil_append, marks_cons_newModel, marks_append, marks_timer, marks_writeEvents,
    execErrs_length, marks_flatten_map rawReadEvents _ marks_rawReadEvents, shape]
  rfl

theorem uptoPanic_of_firstPanic_none {α : Type} (panicOf : α → Option String) (l : List α)
    (h : firstPanic panicOf l = none) : uptoPanic panicOf l = l := by
  induction l with
  | nil => rfl
  | cons a l ih =>
    simp only [firstPanic] at h
    simp only [uptoPanic]
    cases hp : panicOf a with
    | none => rw [hp] at h; simp [ih h]
    | some p => rw [hp] at h; simp at h

theorem firstPanic_raw_none (l : List (Except String Rows))
    (h : ∀ a ∈ l, isCursor a = true) : firstPanic rawReadPanic l = none := by
  induction l with
  | nil => rfl
  | cons a l ih =>
    have ha := h a (by simp)
    cases a with
    | ok rows => simpa [firstPanic, rawReadPanic] using ih fun b hb => h b (by simp [hb])
    | error e => simp [isCursor] at ha

theorem raw_Insert_marks (raw : Raw) (env : Env σ) (N : Nat) (db : σ) :
    marks (Raw.Insert raw env N ⟨db, []⟩).trace
      = shape 1 0 (.exec rawInsertSQL (insertArgs (env.newModel db).1))
          N (.exec rawInsertSQL (insertArgs (env.newModel db).1)) := by
  rw [raw_Insert_eq]
  simp only [List.nil_append, marks_cons_newModel, marks_append, marks_timer, marks_timer3,
    marks_writeEvents, marks_callBlock, execErrs_length, answers_length, marks_replicate_newModel, shape]
  rfl

theorem raw_InsertMulti_marks (raw : Raw) (env : Env σ) (N : Nat) (db : σ) :
    marks (Raw.InsertMulti raw env N ⟨db, []⟩).world.trace
      = shape 100 0 (.exec insertMultiQuery ((drawModels env 100 ⟨db, []⟩).1.map insertArgs).flatten)
          N (.exec insertMultiQuery ((drawModels env 100 ⟨db, []⟩).1.map insertArgs).flatten) := by
  rw [raw_InsertMulti_eq]
  simp only [List.nil_append, marks_cons_newModel, marks_append, marks_timer, marks_timer3,
    marks_writeEvents, marks_callBlock, execErrs_length, answers_length, marks_replicate_newModel, shape]
  rfl

theorem raw_Update_marks (raw : Raw) (env : Env σ) (N : Nat) (db : σ) :
    marks (Raw.Update raw env N ⟨db, []⟩).trace
      = shape 1 1 (.exec rawInsertSQL (insertArgs (env.newModel db).1))
          N (.exec rawUpdateSQL (updateArgs (env.newModel db).1)) := by
  rw [raw_Update_eq]
  simp only [List.nil_append, marks_cons_newModel, marks_append, marks_timer, marks_timer3,
    marks_writeEvents, marks_callBlock, execErrs_length, answers_length, marks_replicate_newModel, shape]
  rfl

theorem raw_Read_marks (raw : Raw) (env : Env σ) (N : Nat) (db : σ) :
    marks (Raw.Read raw env N ⟨db, []⟩).trace
      = shape 1 1 (.exec rawInsertSQL (insertArgs (env.newModel db).1))
          N (.queryRow rawSelectSQL [.int 1]) := by
  rw [raw_Read_eq]
  simp only [List.nil_append, marks_cons_newModel, marks_append, marks_timer, marks_timer3,
    marks_writeEvents, marks_callBlock, execErrs_length, answers_length, marks_replicate_newModel, shape]
  rfl

theorem pgx_Insert_marks (pgx : PgxPool) (k : Sqlx) (env : Env σ) (N : Nat) (db : σ) :
    marks (PgxPool.Insert pgx k env N ⟨db, []⟩).trace
      = shape 1 0 (.exec k.sqlxInsertSQL (insertArgs (env.newModel db).1))
          N (.exec k.sqlxInsertSQL (insertArgs (env.newModel db).1)) := by
  rw [pgx_Insert_eq]
  simp only [List.nil_append, marks_cons_newModel, marks_append, marks_timer, marks_timer3,
    marks_writeEvents, marks_callBlock, execErrs_length, answers_length, marks_replicate_newModel, shape]
  rfl

theorem pgx_InsertMulti_marks (pgx : PgxPool) (k : Sqlx) (env : Env σ) (N : Nat) (db : σ) :
    marks (PgxPool.InsertMulti pgx k env N ⟨db, []⟩).trace
      = shape 1 0 (.copyFrom ["models"] k.columns (PgxPool.insertMultiRows (env.newModel db).1))
          N (.copyFrom ["models"] k.columns (PgxPool.insertMultiRows (env.newModel db).1)) := by
  rw [pgx_InsertMulti_eq]
  simp only [List.nil_append, marks_cons_newModel, marks_append, marks_timer, marks_timer3,
    marks_writeEvents, marks_callBlock, execErrs_length, answers_length, marks_replicate_newModel, shape]
  rfl

theorem pgx_Update_marks (pgx : PgxPool) (k : Sqlx) (env : Env σ) (N : Nat) (db : σ) :
    marks (PgxPool.Update pgx k env N ⟨db, []⟩).trace
      = shape 1 1 (.exec k.sqlxInsertSQL (insertArgs { (env.newModel db).1 with Id := 1 }))
          N (.exec k.sqlxUpdateSQL (updateArgs { (env.newModel db).1 with Id := 1 })) := by
  rw [pgx_Update_eq]
  simp only [List.nil_append, marks_cons_newModel, marks_append, marks_timer, marks_timer3,
    marks_writeEvents, marks_callBlock, execErrs_length, answers_length, marks_replicate_newModel, shape]
  rfl

theorem pgx_Read_marks (pgx : PgxPool) (k : Sqlx) (env : Env σ) (N : Nat) (db : σ) :
    marks (PgxPool.Read pgx k env N ⟨db, []⟩).trace
      = shape 1 1 (.exec k.sqlxInsertSQL (insertArgs { (env.newModel db).1 with Id := 1 }))
          N (.queryRow k.sqlxSelectSQL [.int 1]) := by
  rw [pgx_Read_eq]
  simp only [List.nil_append, marks_cons_newModel, marks_append, marks_timer, marks_timer3,
    marks_writeEvents, marks_callBlock, execErrs_length, answers_length, marks_replicate_newModel, shape]
  rfl

theorem pgx_ReadSlice_marks (pgx : PgxPool) (k : Sqlx) (env : Env σ) (N : Nat) (db : σ) :
    marks (PgxPool.ReadSlice pgx k env N ⟨db, []⟩).world.trace
      = shape 1 100 (.exec k.sqlxInsertSQL (insertArgs (env.newModel db).1))
          N (.query k.sqlxSelectMultiSQL) := by
  rw [pgx_ReadSlice_eq]
  simp only [List.nil_append, marks_cons_newModel, marks_append, marks_timer, marks_timer3,
    marks_writeEvents, marks_callBlock, execErrs_length, answers_length, marks_replicate_newModel, shape,
    marks_flatten_map (pgxReadEvents k.sqlxSelectMultiSQL) _ (marks_pgxReadEvents _)]
  rfl

/-! ## Scripted backends -/

theorem scriptEnv_execState (g : Model) (f : Nat → Option String)
    (q : Nat → Except String Rows) (sql : String) (args : List Value) (n s : Nat) :
    execState (scriptEnv g f q) sql args n s = s + n := by
  unfold execState
  induction n generalizing s with
  | zero => rfl
  | succ n ih =>
    simp only [stateAfter]
    rw [show ((scriptEnv g f q).exec sql args s).2 = s + 1 from rfl, ih]
    omega

theorem scriptEnv_execErrs (g : Model) (f : Nat → Option String)
    (q : Nat → Except String Rows) (sql : String) (args : List Value) (n s : Nat) :
    execErrs (scriptEnv g f q) sql args n s = (List.range' s n).map f := by
  unfold execErrs
  induction n generalizing s with
  | zero => rfl
  | succ n ih =>
    simp only [answers, List.range'_succ, List.map_cons]
    rw [show ((scriptEnv g f q).exec sql args s).2 = s + 1 from rfl, ih]
    rfl

theorem scriptEnv_queryAnswers (g : Model) (f : Nat → Option String)
    (q : Nat → Except String Rows) (sql : String) (n s : Nat) :
    answers ((scriptEnv g f q).query sql) n s = (List.range' s n).map q := by
  induction n generalizing s with
  | zero => rfl
  | succ n ih =>
    simp only [answers, List.range'_succ, List.map_cons]
    rw [show ((scriptEnv g f q).query sql s).2 = s + 1 from rfl, ih]
    rfl

theorem raw_ReadSlice_timed (raw : Raw) (env : Env σ) (N : Nat) (db : σ) :
    timed (Raw.ReadSlice raw env N ⟨db, []⟩).world.trace
      = ((uptoPanic rawReadPanic (answers (env.query rawSelectMultiSQL) N
          (execState env rawInsertSQL (insertArgs (env.newModel db).1) 100
            (env.newModel db).2))).map rawReadEvents).flatten := by
  rw [raw_ReadSlice_eq]
  exact timed_window (Event.newModel :: _) _ (newModel_cons_ne _ (writeEvents_ne _ _ _ _))

theorem pgx_ReadSlice_timed (pgx : PgxPool) (k : Sqlx) (env : Env σ) (N : Nat) (db : σ) :
    timed (PgxPool.ReadSlice pgx k env N ⟨db, []⟩).world.trace
      = ((answers (env.query k.sqlxSelectMultiSQL) N
          (execState env k.sqlxInsertSQL (insertArgs (env.newModel db).1) 100
            (env.newModel db).2)).map (pgxReadEvents k.sqlxSelectMultiSQL)).flatten := by
  rw [pgx_ReadSlice_eq]
  exact timed_window (Event.newModel :: _) _ (newModel_cons_ne _ (writeEvents_ne _ _ _ _))

theorem lostOnce_answers (sql : String) :
    answers (lostOnce.query sql) 2
        (execState lostOnce rawInsertSQL (insertArgs (lostOnce.newModel 0).1) 100
          (lostOnce.newModel 0).2)
      = [.error "connection lost", .ok noRows] := by
  unfold lostOnce
  rw [scriptEnv_execState, scriptEnv_queryAnswers]
  rfl

theorem raw_ReadSlice_panic (raw : Raw) (env : Env σ) (N : Nat) (db : σ) :
    (Raw.ReadSlice raw env N ⟨db, []⟩).panic
      = firstPanic rawReadPanic (answers (env.query rawSelectMultiSQL) N
          (execState env rawInsertSQL (insertArgs (env.newModel db).1) 100
            (env.newModel db).2)) := by
  rw [raw_ReadSlice_eq]

/-- C6, at the failing input: two iterations of `Raw.ReadSlice` on a backend
whose first timed query fails. The failure is reported under "raw" and
"ReadSlice", and then the run ends in the nil-dereference panic of
`rows.Next()`: the measured window holds the failed query and its report and
nothing else, the second iteration never starts. -/
theorem raw_readSlice_failed_query_aborts :
    (Raw.ReadSlice CreateRaw lostOnce 2 ⟨0, []⟩).panic = some "nil pointer dereference"
      ∧ timed (Raw.ReadSlice CreateRaw lostOnce 2 ⟨0, []⟩).world.trace
          = [.call (.query rawSelectMultiSQL) (some "connection lost"),
              .setError "raw" "ReadSlice" "connection lost"] := by
  constructor
  · rw [raw_ReadSlice_panic, lostOnce_answers]
    rfl
  · rw [raw_ReadSlice_timed, lostOnce_answers]
    rfl

/-- C7, at the failing input: with an iteration count of 2 and a backend whose
first timed query fails, `Raw.ReadSlice` makes one measured query, not two. -/
theorem raw_readSlice_measures_one_of_two :
    marks (Raw.ReadSlice CreateRaw lostOnce 2 ⟨0, []⟩).world.trace
        = shape 1 100 (.exec rawInsertSQL (insertArgs sampleModel)) 1
            (.query rawSelectMultiSQL)
      ∧ marks (Raw.ReadSlice CreateRaw lostOnce 2 ⟨0, []⟩).world.trace
        ≠ shape 1 100 (.exec rawInsertSQL (insertArgs sampleModel)) 2
            (.query rawSelectMultiSQL) := by
  have h : marks (Raw.ReadSlice CreateRaw lostOnce 2 ⟨0, []⟩).world.trace
      = shape 1 100 (.exec rawInsertSQL (insertArgs sampleModel)) 1
          (.query rawSelectMultiSQL) := by
    rw [raw_ReadSlice_marks, lostOnce_answers]
    rfl
  refine ⟨h, ?_⟩
  rw [h]
  intro hne
  have := congrArg List.length hne
  simp [shape] at this

/-! ## The arguments bound by `Update` -/

theorem boundArgs_append (a b : List Event) :
    boundArgs (a ++ b) = boundArgs a ++ boundArgs b := by
  simp [boundArgs, calls, attempts_append, List.filterMap_append]

theorem boundArgs_callBlock (sql : String) (args : List Value) (orm method : String)
    (err : Option String) :
    boundArgs (callBlock (.exec sql args) orm method err) = [args] := by
  cases err <;> simp [boundArgs, calls, attempts, callBlock]

theorem boundArgs_writeEvents (sql : String) (args : List Value) (orm method : String)
    (errs : List (Option String)) :
    boundArgs (writeEvents (.exec sql args) orm method errs)
      = List.replicate errs.length args := by
  induction errs with
  | nil => rfl
  | cons err errs ih =>
    rw [writeEvents_cons, boundArgs_append, ih, boundArgs_callBlock]
    simp [List.replicate_succ]

theorem boundArgs_cons_newModel (tr : List Event) :
    boundArgs (Event.newModel :: tr) = boundArgs tr := rfl

theorem boundArgs_timer (tr : List Event) :
    boundArgs ([Event.reportAllocs, Event.resetTimer] ++ tr) = boundArgs tr := rfl

/-- `Raw.Update` binds the seven field values once, then `N` times the seven
field values followed by the identifier of the record as synthesised. -/
theorem raw_Update_boundArgs (raw : Raw) (env : Env σ) (N : Nat) (db : σ) :
    boundArgs (Raw.Update raw env N ⟨db, []⟩).trace
      = insertArgs (env.newModel db).1
          :: List.replicate N (insertArgs (env.newModel db).1
              ++ [Value.int (env.newModel db).1.Id]) := by
  rw [raw_Update_eq]
  simp only [List.nil_append, boundArgs_cons_newModel, boundArgs_append, boundArgs_timer,
    boundArgs_callBlock, boundArgs_writeEvents, execErrs_length]
  rfl

/-- `PgxPool.Update` binds the seven field values once, then `N` times the
seven field values followed by the identifier 1. -/
theorem pgx_Update_boundArgs (pgx : PgxPool) (k : Sqlx) (env : Env σ) (N : Nat) (db : σ) :
    boundArgs (PgxPool.Update pgx k env N ⟨db, []⟩).trace
      = insertArgs (env.newModel db).1
          :: List.replicate N (insertArgs (env.newModel db).1 ++ [Value.int 1]) := by
  rw [pgx_Update_eq]
  simp only [List.nil_append, boundArgs_cons_newModel, boundArgs_append, boundArgs_timer,
    boundArgs_callBlock, boundArgs_writeEvents, execErrs_length]
  rfl

/-- The two strategies bind the same argument lists exactly when no update is
issued or the synthesised record already carries the identifier 1. -/
theorem update_arguments_agree_iff (raw : Raw) (pgx : PgxPool) (k : Sqlx) (env : Env σ)
    (N : Nat) (db : σ) :
    boundArgs (Raw.Update raw env N ⟨db, []⟩).trace
        = boundArgs (PgxPool.Update pgx k env N ⟨db, []⟩).trace
      ↔ N = 0 ∨ (env.newModel db).1.Id = 1 := by
  rw [raw_Update_boundArgs, pgx_Update_boundArgs]
  cases N with
  | zero => simp
  | succ n =>
    simp only [List.replicate_succ, List.cons.injEq, true_and, List.append_cancel_left_eq,
      Value.int.injEq, Nat.add_one_ne_zero, false_or]
    constructor
    · exact fun h => h.1.1
    · intro h
      exact ⟨⟨h, trivial⟩, by rw [h]⟩

/-- C8, at the failing input: one timed iteration of `Update` on a record
whose identifier is still the zero value. Both strategies bind the same seven
values to the seeding insert, but `Raw.Update` binds the identifier 0 to its
update and `PgxPool.Update` the identifier 1: the argument lists differ. -/
theorem update_binds_different_identifiers :
    boundArgs (Raw.Update CreateRaw (alwaysOk sampleModel noRows) 1 ⟨0, []⟩).trace
        = [insertArgs sampleModel, insertArgs sampleModel ++ [Value.int 0]]
      ∧ boundArgs (PgxPool.Update CreatePgxPool sampleSqlx (alwaysOk sampleModel noRows) 1
          ⟨0, []⟩).trace
        = [insertArgs sampleModel, insertArgs sampleModel ++ [Value.int 1]]
      ∧ boundArgs (Raw.Update CreateRaw (alwaysOk sampleModel noRows) 1 ⟨0, []⟩).trace
        ≠ boundArgs (PgxPool.Update CreatePgxPool sampleSqlx (alwaysOk sampleModel noRows) 1
            ⟨0, []⟩).trace := by
  rw [raw_Update_boundArgs, pgx_Update_boundArgs]
  refine ⟨rfl, rfl, ?_⟩
  simp [alwaysOk, scriptEnv, sampleModel, insertArgs]

/-! ## The multi-row statement and its arguments -/

/-- C1: the statement text that `Raw.InsertMulti` assembles is the reference
statement: `rawInsertBaseSQL` followed by the 100 tuples joined by single
commas, tuple `i` holding the placeholders `7i+1 .. 7i+7` in increasing order;
read left to right, the placeholders of the statement are 1, 2, ..., 700, each
once. -/
theorem insertMulti_statement_is_reference :
    insertMultiQuery = specInsertMultiQuery
      ∧ (∀ i : Nat, placeholders (specTuple i) = (List.range 7).map fun k => 7 * i + k + 1)
      ∧ placeholders insertMultiQuery = (List.range 700).map (· + 1)
      ∧ (placeholders insertMultiQuery).Nodup := by
  refine ⟨insertMultiQuery_eq, placeholders_specTuple, placeholders_insertMultiQuery, ?_⟩
  rw [placeholders_insertMultiQuery]
  exact (List.nodup_range 700).map fun a b h => Nat.succ.inj h

theorem insertArgs_eq_fields (m : Model) : insertArgs m = Field.all.map (Field.get m) := rfl

theorem insertArgs_length (m : Model) : (insertArgs m).length = 7 := rfl

theorem flatten_insertArgs_length (ms : List Model) :
    (ms.map insertArgs).flatten.length = 7 * ms.length := by
  induction ms with
  | nil => rfl
  | cons m ms ih => simp [ih, insertArgs_length]; omega

/-- Slot `7j+k` of the argument list is field `k` of record `j`. -/
theorem flatten_insertArgs_get (ms : List Model) : ∀ (j k : Nat), k < 7 →
    (ms.map insertArgs).flatten[7 * j + k]? = (ms[j]?).bind fun m => (insertArgs m)[k]? := by
  induction ms with
  | nil => intro j k _; simp
  | cons m ms ih =>
    intro j k hk
    cases j with
    | zero =>
      simp only [List.map_cons, List.flatten_cons, Nat.mul_zero, Nat.zero_add]
      rw [List.getElem?_append_left (by rw [insertArgs_length]; exact hk)]
      simp
    | succ j =>
      simp only [List.map_cons, List.flatten_cons]
      rw [List.getElem?_append_right (by rw [insertArgs_length]; omega), insertArgs_length,
        show 7 * (j + 1) + k - 7 = 7 * j + k by omega, ih j k hk]
      simp

theorem insertArgs_ne_null (m : Model) : ∀ v ∈ insertArgs m, v ≠ Value.null := by
  intro v hv
  simp only [insertArgs, List.mem_cons, List.mem_singleton, List.mem_nil_iff, or_false] at hv
  rcases hv with h | h | h | h | h | h | h <;> simp [h]

theorem flatten_insertArgs_ne_null (ms : List Model) :
    ∀ v ∈ (ms.map insertArgs).flatten, v ≠ Value.null := by
  intro v hv
  simp only [List.mem_flatten, List.mem_map] at hv
  obtain ⟨l, ⟨m, _, rfl⟩, hvl⟩ := hv
  exact insertArgs_ne_null m v hvl

theorem calls_writeEvents (c : Call) (orm method : String) (errs : List (Option String)) :
    calls (writeEvents c orm method errs) = List.replicate errs.length c := by
  unfold calls
  rw [attempts_writeEvents]
  induction errs with
  | nil => rfl
  | cons e errs ih => simp [List.replicate_succ, ih]

theorem rawInsertBaseSQL_columns :
    rawInsertBaseSQL = renderInsertBase (Field.all.map Field.column) := by
  decide

/-- C2: in every timed iteration of `Raw.InsertMulti` the statement is bound
to one and the same argument list; it has 700 entries, as many as the statement
has placeholders; no entry is left nil; for every record `j < 100` and field
`k < 7` the entry at `7j+k`, bound to the placeholder `$(7j+k+1)`, is field `k`
of record `j`; and the order of the fields is the order of the columns of
`rawInsertBaseSQL`. -/
theorem insertMulti_arguments_match_placeholders (raw : Raw) (env : Env σ) (N : Nat) (db : σ) :
    ∃ args : List Value,
      (Raw.InsertMulti raw env N ⟨db, []⟩).panic = none
        ∧ calls (timed (Raw.InsertMulti raw env N ⟨db, []⟩).world.trace)
            = List.replicate N (Call.exec insertMultiQuery args)
        ∧ insertMultiArgs (drawModels env 100 ⟨db, []⟩).1 = some args
        ∧ (drawModels env 100 ⟨db, []⟩).1.length = 100
        ∧ args.length = 700
        ∧ args.length = (placeholders insertMultiQuery).length
        ∧ (∀ v ∈ args, v ≠ Value.null)
        ∧ (∀ j k : Nat, j < 100 → k < 7 →
            ∃ (m : Model) (f : Field), (drawModels env 100 ⟨db, []⟩).1[j]? = some m
              ∧ Field.all[k]? = some f
              ∧ args[7 * j + k]? = some (f.get m)
              ∧ (placeholders insertMultiQuery)[7 * j + k]? = some (7 * j + k + 1))
        ∧ rawInsertBaseSQL = renderInsertBase (Field.all.map Field.column) := by
  have hlen := drawModels_length env 100 (⟨db, []⟩ : World σ)
  refine ⟨((drawModels env 100 ⟨db, []⟩).1.map insertArgs).flatten, ?_, ?_, insertMultiArgs_eq _,
    hlen, ?_, ?_, flatten_insertArgs_ne_null _, ?_, rawInsertBaseSQL_columns⟩
  · rw [raw_InsertMulti_eq]
  · rw [raw_InsertMulti_timed, calls_writeEvents, execErrs_length]
  · rw [flatten_insertArgs_length, hlen]
  · rw [flatten_insertArgs_length, hlen, placeholders_insertMultiQuery]
    simp
  · intro j k hj hk
    have hj2 : j < (drawModels env 100 (⟨db, []⟩ : World σ)).1.length := by rw [hlen]; exact hj
    have hk2 : k < Field.all.length := hk
    refine ⟨(drawModels env 100 ⟨db, []⟩).1[j], Field.all[k], List.getElem?_eq_getElem hj2,
      List.getElem?_eq_getElem hk2, ?_, ?_⟩
    · rw [flatten_insertArgs_get _ j k hk, List.getElem?_eq_getElem hj2]
      simp only [Option.some_bind, insertArgs_eq_fields]
      rw [List.getElem?_map, List.getElem?_eq_getElem hk2]
      rfl
    · rw [placeholders_insertMultiQuery]
      have h700 : 7 * j + k < 700 := by omega
      simp [List.getElem?_eq_getElem, h700]

/-! ## The update statement -/

theorem rawUpdateSQL_render :
    rawUpdateSQL
      = renderUpdate ((Field.all.map Field.column).zip [1, 2, 3, 4, 5, 6, 7]) "id" 8 := by
  decide

theorem rawUpdateSQL_placeholders : placeholders rawUpdateSQL = [1, 2, 3, 4, 5, 6, 7, 8] := by
  decide

theorem raw_Update_calls (raw : Raw) (env : Env σ) (N : Nat) (db : σ) :
    calls (timed (Raw.Update raw env N ⟨db, []⟩).trace)
      = List.replicate N (Call.exec rawUpdateSQL (updateArgs (env.newModel db).1)) := by
  rw [raw_Update_timed, calls_writeEvents, execErrs_length]

/-- C9: `rawUpdateSQL` assigns exactly the seven columns name, title, fax,
web, age, "right", counter to the placeholders `$1 .. $7` in that order and
selects the row by `id = $8`; the column `id` is not assigned; every timed call
of `Raw.Update` binds exactly eight arguments, the seven field values in the
order of the columns and then the identifier, so the column of each field
receives the value of that field. -/
theorem update_assigns_every_field_by_id (raw : Raw) (env : Env σ) (N : Nat) (db : σ) :
    rawUpdateSQL
        = renderUpdate ((Field.all.map Field.column).zip [1, 2, 3, 4, 5, 6, 7]) "id" 8
      ∧ Field.all.map Field.column
          = ["name", "title", "fax", "web", "age", "\"right\"", "counter"]
      ∧ "id" ∉ Field.all.map Field.column
      ∧ placeholders rawUpdateSQL = [1, 2, 3, 4, 5, 6, 7, 8]
      ∧ calls (timed (Raw.Update raw env N ⟨db, []⟩).trace)
          = List.replicate N (Call.exec rawUpdateSQL (updateArgs (env.newModel db).1))
      ∧ (updateArgs (env.newModel db).1).length = 8
      ∧ updateArgs (env.newModel db).1
          = Field.all.map (Field.get (env.newModel db).1) ++ [Value.int (env.newModel db).1.Id]
      ∧ (∀ (k : Nat) (f : Field), Field.all[k]? = some f →
          ((Field.all.map Field.column).zip [1, 2, 3, 4, 5, 6, 7])[k]? = some (f.column, k + 1)
            ∧ (updateArgs (env.newModel db).1)[k]? = some (f.get (env.newModel db).1))
      ∧ (updateArgs (env.newModel db).1)[7]? = some (Value.int (env.newModel db).1.Id) := by
  refine ⟨rawUpdateSQL_render, rfl, by decide, rawUpdateSQL_placeholders, raw_Update_calls .., rfl,
    rfl, ?_, rfl⟩
  intro k f hk
  have hk7 : k < 7 := by
    by_contra hge
    rw [List.getElem?_eq_none (by simp [Field.all]; omega)] at hk
    exact Option.noConfusion hk
  interval_cases k <;> simp [Field.all] at hk <;> subst hk <;> exact ⟨rfl, rfl⟩

/-! ## Initialisation -/

theorem Getenv_eq_iff (environ : String → Option String) (key : String) :
    Getenv environ key = "SIMPLE_PROTOCOL" ↔ environ key = some "SIMPLE_PROTOCOL" := by
  unfold Getenv
  cases h : environ key with
  | none => simp
  | some v => simp

theorem configure_values (environ : String → Option String) (c0 : Config) :
    (PgxPool.configure environ c0).MaxConns = 200
      ∧ (PgxPool.configure environ c0).MinConns = 20
      ∧ (PgxPool.configure environ c0).MaxConnLifetime = 9000000000
      ∧ (PgxPool.configure environ c0).MaxConnIdleTime = 3000000000
      ∧ (PgxPool.configure environ c0).TLSConfig = some ⟨true⟩ := by
  unfold PgxPool.configure
  split <;> exact ⟨rfl, rfl, by norm_num [Second], by norm_num [Second], rfl⟩

theorem configure_mode (environ : String → Option String) (c0 : Config) :
    (PgxPool.configure environ c0).DefaultQueryExecMode
      = if environ "DB_QUERY_MODE_EXEC" = some "SIMPLE_PROTOCOL" then QueryExecMode.SimpleProtocol
        else QueryExecMode.Exec := by
  unfold PgxPool.configure
  by_cases h : environ "DB_QUERY_MODE_EXEC" = some "SIMPLE_PROTOCOL"
  · simp [h, (Getenv_eq_iff environ _).2 h]
  · have h2 : ¬ Getenv environ "DB_QUERY_MODE_EXEC" = "SIMPLE_PROTOCOL" :=
      fun hh => h ((Getenv_eq_iff environ _).1 hh)
    simp [h, h2]

theorem pgx_Init_ok (parseConfig : String → Except String Config)
    (newWithConfig : Config → Option Pool × Option String)
    (environ : String → Option String) (src : String) (pgx pgx1 : PgxPool)
    (h : PgxPool.Init parseConfig newWithConfig environ src pgx = (none, pgx1)) :
    ∃ c0 : Config, parseConfig src = .ok c0
      ∧ newWithConfig (PgxPool.configure environ c0) = (pgx1.conn, none) := by
  unfold PgxPool.Init at h
  cases hp : parseConfig src with
  | error e => simp [hp] at h
  | ok c0 =>
    refine ⟨c0, rfl, ?_⟩
    simp only [hp] at h
    cases hn : (newWithConfig (PgxPool.configure environ c0)).2 with
    | some e => simp [hn] at h
    | none =>
      simp only [hn, Prod.mk.injEq, true_and] at h
      rw [← h]
      exact Prod.ext rfl hn

theorem raw_Init_ok (sqlOpen : String → String → Except String DB) (src : String)
    (raw raw1 : Raw) (h : Raw.Init sqlOpen src raw = (none, raw1)) :
    ∃ db : DB, raw1.conn = some db ∧ db.maxOpenConns = 200 ∧ db.maxIdleConns = 20
      ∧ db.connMaxLifetime = 300000000000 := by
  unfold Raw.Init at h
  cases ho : sqlOpen "pgx" src with
  | error e => simp [ho] at h
  | ok db =>
    simp only [ho, Prod.mk.injEq, true_and] at h
    rw [← h]
    exact ⟨_, rfl, rfl, rfl, by norm_num [Minute, Second]⟩

theorem pgx_Init_success (parseConfig : String → Except String Config)
    (newWithConfig : Config → Option Pool × Option String)
    (environ : String → Option String) (src : String) (pgx : PgxPool) (c0 : Config)
    (p : Option Pool) (hp : parseConfig src = .ok c0)
    (hn : newWithConfig (PgxPool.configure environ c0) = (p, none)) :
    PgxPool.Init parseConfig newWithConfig environ src pgx = (none, ⟨p⟩) := by
  unfold PgxPool.Init
  simp only [hp, hn]

theorem pgx_Init_pool_error (parseConfig : String → Except String Config)
    (newWithConfig : Config → Option Pool × Option String)
    (environ : String → Option String) (src : String) (pgx : PgxPool) (c0 : Config)
    (p : Option Pool) (e : String) (hp : parseConfig src = .ok c0)
    (hn : newWithConfig (PgxPool.configure environ c0) = (p, some e)) :
    PgxPool.Init parseConfig newWithConfig environ src pgx = (some e, ⟨p⟩) := by
  unfold PgxPool.Init
  simp only [hp, hn]

theorem raw_Init_success (sqlOpen : String → String → Except String DB) (src : String)
    (raw : Raw) (db0 : DB) (ho : sqlOpen "pgx" src = .ok db0) :
    Raw.Init sqlOpen src raw = (none, ⟨some ⟨200, 20, 5 * (60 * Second)⟩⟩) := by
  unfold Raw.Init
  simp only [ho]
  rfl

/-- C10: `PgxPool.Init` succeeds whenever the locator parses and the pool can
be created, and the pool it then holds is the one created from the parsed
configuration with the reference values applied: at most 200 and at least 20
connections, a connection lifetime of 9 seconds, an idle time of 3 seconds, TLS
verification disabled, and the simple protocol exactly when
`DB_QUERY_MODE_EXEC` is "SIMPLE_PROTOCOL" (the exec mode for every other value
and when unset); `Raw.Init` succeeds whenever the connection can be opened, and
its connection then allows 200 open and 20 idle connections with a lifetime of
5 minutes; conversely a successful `Init` is always of this kind; and when
parsing the locator fails, `PgxPool.Init` returns that error and leaves the
connection as it was, unset on a fresh accessor. -/
theorem init_applies_reference_configuration
    (parseConfig : String → Except String Config)
    (newWithConfig : Config → Option Pool × Option String)
    (sqlOpen : String → String → Except String DB)
    (environ : String → Option String) (src : String) (pgx : PgxPool) (raw : Raw) :
    (∀ (c0 : Config) (p : Option Pool), parseConfig src = .ok c0 →
        newWithConfig (PgxPool.configure environ c0) = (p, none) →
        PgxPool.Init parseConfig newWithConfig environ src pgx = (none, ⟨p⟩)
          ∧ (PgxPool.configure environ c0).MaxConns = 200
          ∧ (PgxPool.configure environ c0).MinConns = 20
          ∧ (PgxPool.configure environ c0).MaxConnLifetime = 9 * Second
          ∧ Second = 1000000000
          ∧ (PgxPool.configure environ c0).MaxConnIdleTime = 3 * Second
          ∧ (PgxPool.configure environ c0).TLSConfig = some ⟨true⟩
          ∧ ((PgxPool.configure environ c0).DefaultQueryExecMode = QueryExecMode.SimpleProtocol
              ↔ environ "DB_QUERY_MODE_EXEC" = some "SIMPLE_PROTOCOL")
          ∧ (environ "DB_QUERY_MODE_EXEC" ≠ some "SIMPLE_PROTOCOL"
              → (PgxPool.configure environ c0).DefaultQueryExecMode = QueryExecMode.Exec))
      ∧ (∀ (c0 : Config) (p : Option Pool) (e : String), parseConfig src = .ok c0 →
          newWithConfig (PgxPool.configure environ c0) = (p, some e) →
          PgxPool.Init parseConfig newWithConfig environ src pgx = (some e, ⟨p⟩))
      ∧ (∀ db0 : DB, sqlOpen "pgx" src = .ok db0 →
          Raw.Init sqlOpen src raw = (none, ⟨some ⟨200, 20, 5 * (60 * Second)⟩⟩))
      ∧ (∀ e : String, sqlOpen "pgx" src = .error e →
          Raw.Init sqlOpen src raw = (some e, raw))
      ∧ (∀ pgx1 : PgxPool, PgxPool.Init parseConfig newWithConfig environ src pgx = (none, pgx1) →
        ∃ c0 cfg : Config, parseConfig src = .ok c0 ∧ cfg = PgxPool.configure environ c0
          ∧ newWithConfig cfg = (pgx1.conn, none)
          ∧ cfg.MaxConns = 200 ∧ cfg.MinConns = 20
          ∧ cfg.MaxConnLifetime = 9 * Second ∧ Second = 1000000000
          ∧ cfg.MaxConnIdleTime = 3 * Second
          ∧ cfg.TLSConfig = some ⟨true⟩
          ∧ (cfg.DefaultQueryExecMode = QueryExecMode.SimpleProtocol
              ↔ environ "DB_QUERY_MODE_EXEC" = some "SIMPLE_PROTOCOL")
          ∧ (environ "DB_QUERY_MODE_EXEC" ≠ some "SIMPLE_PROTOCOL"
              → cfg.DefaultQueryExecMode = QueryExecMode.Exec))
      ∧ (∀ raw1 : Raw, Raw.Init sqlOpen src raw = (none, raw1) →
          ∃ db : DB, raw1.conn = some db ∧ db.maxOpenConns = 200 ∧ db.maxIdleConns = 20
            ∧ db.connMaxLifetime = 5 * (60 * Second))
      ∧ (∀ e : String, parseConfig src = .error e →
          PgxPool.Init parseConfig newWithConfig environ src pgx = (some e, pgx)
            ∧ (PgxPool.Init parseConfig newWithConfig environ src CreatePgxPool).2.conn
                = none) := by
  have hvals : ∀ c0 : Config,
      (PgxPool.configure environ c0).MaxConns = 200
        ∧ (PgxPool.configure environ c0).MinConns = 20
        ∧ (PgxPool.configure environ c0).MaxConnLifetime = 9 * Second
        ∧ Second = 1000000000
        ∧ (PgxPool.configure environ c0).MaxConnIdleTime = 3 * Second
        ∧ (PgxPool.configure environ c0).TLSConfig = some ⟨true⟩
        ∧ ((PgxPool.configure environ c0).DefaultQueryExecMode = QueryExecMode.SimpleProtocol
            ↔ environ "DB_QUERY_MODE_EXEC" = some "SIMPLE_PROTOCOL")
        ∧ (environ "DB_QUERY_MODE_EXEC" ≠ some "SIMPLE_PROTOCOL"
            → (PgxPool.configure environ c0).DefaultQueryExecMode = QueryExecMode.Exec) := by
    intro c0
    obtain ⟨h1, h2, h3, h4, h5⟩ := configure_values environ c0
    have hm := configure_mode environ c0
    refine ⟨h1, h2, ?_, rfl, ?_, h5, ?_, ?_⟩
    · rw [h3]; norm_num [Second]
    · rw [h4]; norm_num [Second]
    · rw [hm]
      by_cases h : environ "DB_QUERY_MODE_EXEC" = some "SIMPLE_PROTOCOL" <;> simp [h]
    · intro h
      rw [hm, if_neg h]
  refine ⟨?_, ?_, ?_, ?_, ?_, ?_, ?_⟩
  · intro c0 p hp hn
    exact ⟨pgx_Init_success parseConfig newWithConfig environ src pgx c0 p hp hn, hvals c0⟩
  · intro c0 p e hp hn
    exact pgx_Init_pool_error parseConfig newWithConfig environ src pgx c0 p e hp hn
  · intro db0 ho
    exact raw_Init_success sqlOpen src raw db0 ho
  · intro e he
    simp [Raw.Init, he]
  · intro pgx1 h
    obtain ⟨c0, hp, hn⟩ := pgx_Init_ok parseConfig newWithConfig environ src pgx pgx1 h
    exact ⟨c0, _, hp, rfl, hn, hvals c0⟩
  · intro raw1 h
    obtain ⟨db, h1, h2, h3, h4⟩ := raw_Init_ok sqlOpen src raw raw1 h
    exact ⟨db, h1, h2, h3, by rw [h4]; norm_num [Second]⟩
  · intro e he
    simp [PgxPool.Init, he, CreatePgxPool]

/-- C10 on sample runs: with a locator that parses to `sampleConfig` and a
pool that can be created, `PgxPool.Init` on a fresh accessor succeeds and holds
the pool of the reference configuration, in the exec mode when
`DB_QUERY_MODE_EXEC` is unset or "simple_protocol" and in the simple protocol
when it is "SIMPLE_PROTOCOL"; `Raw.Init` on a fresh accessor succeeds and holds
a connection with 200 open, 20 idle connections and a lifetime of 5 minutes. -/
theorem init_applies_reference_configuration_witness :
    PgxPool.Init (fun _ => .ok sampleConfig) (fun c => (some ⟨c⟩, none)) (fun _ => none)
        "postgres://localhost/bench" CreatePgxPool
      = (none, ⟨some ⟨⟨some ⟨true⟩, [("timezone", "UTC")], .Exec, 200, 20, 9000000000,
          3000000000⟩⟩⟩)
      ∧ PgxPool.Init (fun _ => .ok sampleConfig) (fun c => (some ⟨c⟩, none))
          (fun _ => some "SIMPLE_PROTOCOL") "postgres://localhost/bench" CreatePgxPool
        = (none, ⟨some ⟨⟨some ⟨true⟩, [("timezone", "UTC")], .SimpleProtocol, 200, 20,
            9000000000, 3000000000⟩⟩⟩)
      ∧ PgxPool.Init (fun _ => .ok sampleConfig) (fun c => (some ⟨c⟩, none))
          (fun _ => some "simple_protocol") "postgres://localhost/bench" CreatePgxPool
        = (none, ⟨some ⟨⟨some ⟨true⟩, [("timezone", "UTC")], .Exec, 200, 20, 9000000000,
            3000000000⟩⟩⟩)
      ∧ Raw.Init (fun _ _ => .ok ⟨0, 2, 0⟩) "postgres://localhost/bench" CreateRaw
        = (none, ⟨some ⟨200, 20, 300000000000⟩⟩) :=
  ⟨((init_applies_reference_configuration (fun _ => .ok sampleConfig)
      (fun c => (some ⟨c⟩, none)) (fun _ _ => .ok ⟨0, 2, 0⟩) (fun _ => none)
      "postgres://localhost/bench" CreatePgxPool CreateRaw).1 sampleConfig _ rfl
      (by decide)).1,
    ((init_applies_reference_configuration (fun _ => .ok sampleConfig)
      (fun c => (some ⟨c⟩, none)) (fun _ _ => .ok ⟨0, 2, 0⟩) (fun _ => some "SIMPLE_PROTOCOL")
      "postgres://localhost/bench" CreatePgxPool CreateRaw).1 sampleConfig _ rfl
      (by decide)).1,
    ((init_applies_reference_configuration (fun _ => .ok sampleConfig)
      (fun c => (some ⟨c⟩, none)) (fun _ _ => .ok ⟨0, 2, 0⟩) (fun _ => some "simple_protocol")
      "postgres://localhost/bench" CreatePgxPool CreateRaw).1 sampleConfig _ rfl
      (by decide)).1,
    (init_applies_reference_configuration (fun _ => .ok sampleConfig)
      (fun c => (some ⟨c⟩, none)) (fun _ _ => .ok ⟨0, 2, 0⟩) (fun _ => none)
      "postgres://localhost/bench" CreatePgxPool CreateRaw).2.2.1 ⟨0, 2, 0⟩ rfl⟩

/-! ## The scan loop of `ReadSlice` -/

theorem scans_scanEvents (orm : String) (rows : List (Except String Model)) :
    ∀ (j len : Nat),
      scans (scanEvents orm rows j len) = List.range' j (min rows.length (len - j)) := by
  induction rows with
  | nil => intro j len; simp [scanEvents, scans]
  | cons r rows ih =>
    intro j len
    simp only [scanEvents]
    by_cases hj : j < len
    · have hmin : min (r :: rows).length (len - j) = min rows.length (len - (j + 1)) + 1 := by
        simp only [List.length_cons]; omega
      rw [hmin, List.range'_succ]
      cases r with
      | ok m =>
        simp only [hj, if_true]
        rw [scans_append, ih]
        rfl
      | error e =>
        simp only [hj, if_true]
        rw [scans_append, ih]
        rfl
    · have hmin : min (r :: rows).length (len - j) = 0 := by omega
      simp only [hj, if_false, hmin]
      rfl

theorem reports_scanEvents (orm : String) (rows : List (Except String Model)) :
    ∀ (j len : Nat),
      reports (scanEvents orm rows j len)
        = ((rows.take (len - j)).filterMap errOf).map fun e => (orm, "ReadSlice", e) := by
  induction rows with
  | nil => intro j len; simp [scanEvents, reports]
  | cons r rows ih =>
    intro j len
    simp only [scanEvents]
    by_cases hj : j < len
    · have hlen : len - j = (len - (j + 1)) + 1 := by omega
      rw [hlen, List.take_succ_cons]
      cases r with
      | ok m =>
        simp only [hj, if_true]
        rw [reports_append, ih]
        simp [reports, errOf]
      | error e =>
        simp only [hj, if_true]
        rw [reports_append, ih]
        simp [reports, errOf]
    · have hlen : len - j = 0 := by omega
      simp only [hj, if_false, hlen]
      rfl

theorem scans_cursorEvents (orm : String) (rows : Rows) (close : Option String) :
    scans (cursorEvents orm rows close) = List.range (min rows.pending.length 100) := by
  unfold cursorEvents
  simp only [scans_append, scans_scanEvents, List.range_eq_range', Nat.sub_zero]
  cases rows.err <;> cases close <;> simp [scans]

theorem reports_cursorEvents (orm : String) (rows : Rows) (close : Option String) :
    reports (cursorEvents orm rows close)
      = (cursorErrors rows close).map fun e => (orm, "ReadSlice", e) := by
  unfold cursorEvents cursorErrors
  simp only [reports_append, reports_scanEvents, Nat.sub_zero, List.map_append]
  cases rows.err <;> cases close <;> simp [reports]

theorem cursorErrors_nil (rows : Rows) (close : Option String)
    (h1 : ∀ r ∈ rows.pending, errOf r = none) (h2 : rows.err = none) (h3 : close = none) :
    cursorErrors rows close = [] := by
  unfold cursorErrors
  rw [h2, h3]
  simp only [Option.toList, List.append_nil, List.filterMap_eq_nil_iff]
  intro r hr
  exact h1 r (List.mem_of_mem_take hr)

theorem raw_readSliceBody_ok (raw : Raw) (env : Env σ) (db : σ) (rows : Rows)
    (h : (env.query rawSelectMultiSQL db).1 = .ok rows) :
    (Raw.readSliceBody raw env ⟨db, []⟩).panic = none
      ∧ (Raw.readSliceBody raw env ⟨db, []⟩).world.trace
          = Event.call (.query rawSelectMultiSQL) none :: cursorEvents "raw" rows rows.closeErr := by
  rw [raw_readSliceBody_eq]
  simp only [h, rawReadPanic, rawReadEvents, List.nil_append, and_self]

theorem pgx_readSliceBody_ok (pgx : PgxPool) (k : Sqlx) (env : Env σ) (db : σ) (rows : Rows)
    (h : (env.query k.sqlxSelectMultiSQL db).1 = .ok rows) :
    (PgxPool.readSliceBody pgx k env ⟨db, []⟩).panic = none
      ∧ (PgxPool.readSliceBody pgx k env ⟨db, []⟩).world.trace
          = Event.call (.query k.sqlxSelectMultiSQL) none :: cursorEvents "pgx_pool" rows none := by
  rw [pgx_readSliceBody_eq]
  simp only [h, pgxReadEvents, errOf, callBlock, pgxRows, List.nil_append, List.singleton_append,
    and_self]

theorem scans_cons_call (c : Call) (err : Option String) (tr : List Event) :
    scans (Event.call c err :: tr) = scans tr := rfl

theorem reports_cons_call (c : Call) (err : Option String) (tr : List Event) :
    reports (Event.call c err :: tr) = reports tr := rfl

/-- C4: in a timed iteration of `ReadSlice` whose query returned a cursor
yielding `n` rows, for every `n`, both strategies scan exactly `min n 100`
records, into the slots `0 .. min n 100 - 1` of the buffer; every slot index is
below 100 and the iteration does not panic; the reports of the iteration are
those of the errors the driver returned (failed scans, the error of the cursor,
the error of closing it), so a cursor without errors is reported nothing,
however few rows it yields. -/
theorem readSlice_scans_up_to_limit (raw : Raw) (pgx : PgxPool) (k : Sqlx) (env : Env σ)
    (db : σ) (rows : Rows)
    (hraw : (env.query rawSelectMultiSQL db).1 = .ok rows)
    (hpgx : (env.query k.sqlxSelectMultiSQL db).1 = .ok rows) :
    ((Raw.readSliceBody raw env ⟨db, []⟩).panic = none
        ∧ scans (Raw.readSliceBody raw env ⟨db, []⟩).world.trace
            = List.range (min rows.pending.length 100)
        ∧ (scans (Raw.readSliceBody raw env ⟨db, []⟩).world.trace).length
            = min rows.pending.length 100
        ∧ (∀ j ∈ scans (Raw.readSliceBody raw env ⟨db, []⟩).world.trace, j < 100)
        ∧ reports (Raw.readSliceBody raw env ⟨db, []⟩).world.trace
            = (cursorErrors rows rows.closeErr).map fun e => ("raw", "ReadSlice", e))
      ∧ ((PgxPool.readSliceBody pgx k env ⟨db, []⟩).panic = none
        ∧ scans (PgxPool.readSliceBody pgx k env ⟨db, []⟩).world.trace
            = List.range (min rows.pending.length 100)
        ∧ (scans (PgxPool.readSliceBody pgx k env ⟨db, []⟩).world.trace).length
            = min rows.pending.length 100
        ∧ (∀ j ∈ scans (PgxPool.readSliceBody pgx k env ⟨db, []⟩).world.trace, j < 100)
        ∧ reports (PgxPool.readSliceBody pgx k env ⟨db, []⟩).world.trace
            = (cursorErrors rows none).map fun e => ("pgx_pool", "ReadSlice", e))
      ∧ ((∀ r ∈ rows.pending, errOf r = none) → rows.err = none → rows.closeErr = none →
          reports (Raw.readSliceBody raw env ⟨db, []⟩).world.trace = []
            ∧ reports (PgxPool.readSliceBody pgx k env ⟨db, []⟩).world.trace = []) := by
  obtain ⟨hr1, hr2⟩ := raw_readSliceBody_ok raw env db rows hraw
  obtain ⟨hp1, hp2⟩ := pgx_readSliceBody_ok pgx k env db rows hpgx
  have hrs : scans (Raw.readSliceBody raw env ⟨db, []⟩).world.trace
      = List.range (min rows.pending.length 100) := by
    rw [hr2, scans_cons_call, scans_cursorEvents]
  have hps : scans (PgxPool.readSliceBody pgx k env ⟨db, []⟩).world.trace
      = List.range (min rows.pending.length 100) := by
    rw [hp2, scans_cons_call, scans_cursorEvents]
  have hrr : reports (Raw.readSliceBody raw env ⟨db, []⟩).world.trace
      = (cursorErrors rows rows.closeErr).map fun e => ("raw", "ReadSlice", e) := by
    rw [hr2, reports_cons_call, reports_cursorEvents]
  have hpr : reports (PgxPool.readSliceBody pgx k env ⟨db, []⟩).world.trace
      = (cursorErrors rows none).map fun e => ("pgx_pool", "ReadSlice", e) := by
    rw [hp2, reports_cons_call, reports_cursorEvents]
  have hlt : ∀ j ∈ List.range (min rows.pending.length 100), j < 100 := by
    intro j hj
    have := List.mem_range.1 hj
    omega
  refine ⟨⟨hr1, hrs, by rw [hrs, List.length_range], by rw [hrs]; exact hlt, hrr⟩,
    ⟨hp1, hps, by rw [hps, List.length_range], by rw [hps]; exact hlt, hpr⟩, ?_⟩
  intro h1 h2 h3
  rw [hrr, hpr, cursorErrors_nil rows _ h1 h2 h3, cursorErrors_nil rows none h1 h2 rfl]
  exact ⟨rfl, rfl⟩

/-- C4 at a cursor of 101 rows: both strategies scan 100 of them and report
nothing. -/
theorem readSlice_scans_up_to_limit_witness :
    ((alwaysOk sampleModel manyRows).query rawSelectMultiSQL 0).1 = .ok manyRows
      ∧ ((alwaysOk sampleModel manyRows).query sampleSqlx.sqlxSelectMultiSQL 0).1 = .ok manyRows
      ∧ manyRows.pending.length = 101
      ∧ (scans (Raw.readSliceBody CreateRaw (alwaysOk sampleModel manyRows)
          ⟨0, []⟩).world.trace).length = min manyRows.pending.length 100
      ∧ (scans (PgxPool.readSliceBody CreatePgxPool sampleSqlx (alwaysOk sampleModel manyRows)
          ⟨0, []⟩).world.trace).length = min manyRows.pending.length 100 :=
  ⟨rfl, rfl, rfl,
    (readSlice_scans_up_to_limit CreateRaw CreatePgxPool sampleSqlx
      (alwaysOk sampleModel manyRows) 0 manyRows rfl rfl).1.2.2.1,
    (readSlice_scans_up_to_limit CreateRaw CreatePgxPool sampleSqlx
      (alwaysOk sampleModel manyRows) 0 manyRows rfl rfl).2.1.2.2.1⟩

/-! ## Bulk writes on the backing store -/

theorem appendCopies_length (gen : Model) (n : Nat) :
    ∀ s : List Model, (appendCopies gen n s).length = s.length + n := by
  induction n with
  | zero => intro s; rfl
  | succ n ih => intro s; simp [appendCopies, ih]; omega

theorem appendCopies_add (gen : Model) (a b : Nat) :
    ∀ s : List Model, appendCopies gen (a + b) s = appendCopies gen b (appendCopies gen a s) := by
  induction a with
  | zero => intro s; simp [appendCopies]
  | succ a ih =>
    intro s
    rw [show a + 1 + b = (a + b) + 1 by omega]
    simp only [appendCopies]
    exact ih _

theorem storeAppend_replicate (gen : Model) (n : Nat) :
    ∀ s : List Model,
      storeAppend s (List.replicate n (insertArgs gen)) = some (appendCopies gen n s) := by
  induction n with
  | zero => intro s; rfl
  | succ n ih =>
    intro s
    rw [List.replicate_succ, storeAppend]
    simp only [insertArgs, toModel]
    exact ih _

/-- Repeating a step that inserts `c` copies. -/
theorem stateAfter_appendCopies (gen : Model) (c : Nat)
    (step : List Model → Option String × List Model)
    (h : ∀ s, step s = (none, appendCopies gen c s)) (n : Nat) :
    ∀ s : List Model, stateAfter step n s = appendCopies gen (c * n) s
      ∧ answers step n s = List.replicate n none := by
  induction n with
  | zero => intro s; exact ⟨rfl, rfl⟩
  | succ n ih =>
    intro s
    simp only [stateAfter, answers, h, List.replicate_succ]
    rw [(ih _).1, (ih _).2, Nat.mul_succ, Nat.add_comm (c * n) c, appendCopies_add]
    exact ⟨rfl, rfl⟩

theorem storeExec_single (gen : Model) (s : List Model) :
    storeExec rawInsertSQL (insertArgs gen) s = (none, appendCopies gen 1 s) := by
  unfold storeExec
  rw [valueTuples_rawInsertSQL]
  rfl

theorem foldl_append_const {α : Type} (x : α) (n : Nat) :
    (List.range n).foldl (fun rows _ => rows ++ [x]) [] = List.replicate n x := by
  induction n with
  | zero => rfl
  | succ n ih =>
    rw [List.range_succ, List.foldl_append, ih]
    simp only [List.foldl_cons, List.foldl_nil]
    exact (List.replicate_succ' n x).symm

/-- The row source of `PgxPool.InsertMulti`: 100 rows, each the seven field
values of the one record. -/
theorem pgx_insertMultiRows_eq (m : Model) :
    PgxPool.insertMultiRows m = List.replicate 100 (insertArgs m) :=
  foldl_append_const _ _

theorem storeCopyFrom_hundred (gen : Model) (s : List Model) :
    storeCopyFrom (PgxPool.insertMultiRows gen) s = (none, appendCopies gen 100 s) := by
  unfold storeCopyFrom
  rw [pgx_insertMultiRows_eq, storeAppend_replicate]

theorem getElem?_after {α : Type} (pre l : List α) (n k : Nat) (h : pre.length = n) :
    (pre ++ l)[n + k]? = l[k]? := by
  subst h
  rw [List.getElem?_append_right (by omega)]
  simp

/-- The tuple of record `j` binds the seven values of that record. -/
theorem bindTuple_record (pre rest : List Value) (m : Model) (j : Nat)
    (h : pre.length = 7 * j) :
    bindTuple (pre ++ (insertArgs m ++ rest))
        [7 * j + 1, 7 * j + 2, 7 * j + 3, 7 * j + 4, 7 * j + 5, 7 * j + 6, 7 * j + 7]
      = some (insertArgs m) := by
  have hg := fun k => getElem?_after pre (insertArgs m ++ rest) (7 * j) k h
  have h0 := hg 0
  simp only [Nat.add_zero] at h0
  simp only [bindTuple, List.get?_eq_getElem?, Nat.add_one_sub_one, Nat.add_sub_cancel, hg, h0,
    Nat.add_eq_zero, OfNat.ofNat_ne_zero, one_ne_zero, and_false, if_false,
    show 7 * j + 2 - 1 = 7 * j + 1 by omega, show 7 * j + 3 - 1 = 7 * j + 2 by omega,
    show 7 * j + 4 - 1 = 7 * j + 3 by omega, show 7 * j + 5 - 1 = 7 * j + 4 by omega,
    show 7 * j + 6 - 1 = 7 * j + 5 by omega, show 7 * j + 7 - 1 = 7 * j + 6 by omega]
  simp [insertArgs]

theorem bindRows_records (ms : List Model) : ∀ (j : Nat) (pre : List Value),
    pre.length = 7 * j →
    bindRows (pre ++ (ms.map insertArgs).flatten)
        ((List.range' j ms.length).map fun i =>
          [7 * i + 1, 7 * i + 2, 7 * i + 3, 7 * i + 4, 7 * i + 5, 7 * i + 6, 7 * i + 7])
      = some (ms.map insertArgs) := by
  induction ms with
  | nil => intro j pre _; rfl
  | cons m ms ih =>
    intro j pre h
    simp only [List.length_cons, List.range'_succ, List.map_cons, List.flatten_cons, bindRows]
    rw [bindTuple_record pre _ m j h]
    have := ih (j + 1) (pre ++ insertArgs m) (by simp [h, insertArgs_length]; omega)
    rw [List.append_assoc] at this
    rw [this]

theorem drawModels_storeEnv (gen : Model) (n : Nat) :
    ∀ w : World (List Model), (drawModels (storeEnv gen) n w).1 = List.replicate n gen
      ∧ (drawModels (storeEnv gen) n w).2.db = w.db := by
  induction n with
  | zero => intro w; exact ⟨rfl, rfl⟩
  | succ n ih =>
    intro w
    simp only [drawModels, List.replicate_succ]
    rw [(ih _).1, (ih _).2]
    exact ⟨rfl, rfl⟩

theorem storeExec_of (sql : String) (args : List Value) (s s1 : List Model)
    (tuples : List (List Nat)) (rows : List (List Value))
    (h1 : valueTuples sql = some tuples) (h2 : bindRows args tuples = some rows)
    (h3 : storeAppend s rows = some s1) : storeExec sql args s = (none, s1) := by
  unfold storeExec
  rw [h1]
  simp only [h2, h3]

theorem bindRows_copies (gen : Model) :
    bindRows ((List.replicate 100 gen).map insertArgs).flatten
        ((List.range 100).map fun i =>
          [7 * i + 1, 7 * i + 2, 7 * i + 3, 7 * i + 4, 7 * i + 5, 7 * i + 6, 7 * i + 7])
      = some ((List.replicate 100 gen).map insertArgs) := by
  have hb := bindRows_records (List.replicate 100 gen) 0 [] rfl
  rw [List.length_replicate, List.nil_append, ← List.range_eq_range'] at hb
  exact hb

theorem storeAppend_copies (gen : Model) (s : List Model) :
    storeAppend s ((List.replicate 100 gen).map insertArgs) = some (appendCopies gen 100 s) := by
  rw [List.map_replicate]
  exact storeAppend_replicate gen 100 s

/-- The store executes the hand-assembled statement on the 700 values of 100
copies of a record by appending 100 rows. -/
theorem storeExec_multi (gen : Model) (s : List Model) :
    storeExec insertMultiQuery ((List.replicate 100 gen).map insertArgs).flatten s
      = (none, appendCopies gen 100 s) :=
  storeExec_of _ _ _ _ _ _ valueTuples_insertMultiQuery (bindRows_copies gen)
    (storeAppend_copies gen s)

theorem storeEnv_copyFrom_eq (gen : Model) (table columns : List String)
    (rows : List (List Value)) (s : List Model) :
    (storeEnv gen).copyFrom table columns rows s = storeCopyFrom rows s := rfl

theorem storeEnv_exec_eq (gen : Model) (sql : String) (args : List Value) (s : List Model) :
    (storeEnv gen).exec sql args s = storeExec sql args s := rfl

theorem storeEnv_copyFrom (gen : Model) (table columns : List String) (s : List Model) :
    (storeEnv gen).copyFrom table columns (PgxPool.insertMultiRows gen) s
      = (none, appendCopies gen 100 s) := by
  rw [storeEnv_copyFrom_eq, storeCopyFrom_hundred]

theorem storeEnv_exec_multi (gen : Model) (s : List Model) :
    (storeEnv gen).exec insertMultiQuery ((List.replicate 100 gen).map insertArgs).flatten s
      = (none, appendCopies gen 100 s) := by
  rw [storeEnv_exec_eq, storeExec_multi]

theorem storeEnv_exec_single (gen : Model) (s : List Model) :
    (storeEnv gen).exec rawInsertSQL (insertArgs gen) s = (none, appendCopies gen 1 s) := by
  rw [storeEnv_exec_eq, storeExec_single]

theorem storeEnv_newModel (gen : Model) (s : List Model) :
    (storeEnv gen).newModel s = (gen, s) := rfl

/-- `PgxPool.InsertMulti` on the store: every bulk copy succeeds and appends
100 rows. -/
theorem pgx_InsertMulti_store (pgx : PgxPool) (k : Sqlx) (gen : Model) (s : List Model)
    (n : Nat) :
    PgxPool.InsertMulti pgx k (storeEnv gen) n ⟨s, []⟩
      = ⟨appendCopies gen (100 * n) s, [] ++ ([.newModel, .reportAllocs, .resetTimer] ++
          writeEvents (.copyFrom ["models"] k.columns (PgxPool.insertMultiRows gen))
            "pgx_pool" "InsertMulti" (List.replicate n none))⟩ := by
  have h := stateAfter_appendCopies gen 100
    ((storeEnv gen).copyFrom ["models"] k.columns (PgxPool.insertMultiRows gen))
    (storeEnv_copyFrom gen _ _) n s
  rw [pgx_InsertMulti_eq]
  simp only [storeEnv_newModel, h.1, h.2]

/-- `Raw.InsertMulti` on the store: every multi-row insert succeeds and
appends 100 rows. -/
theorem raw_InsertMulti_store (raw : Raw) (gen : Model) (s : List Model) (n : Nat) :
    Raw.InsertMulti raw (storeEnv gen) n ⟨s, []⟩
      = ⟨⟨appendCopies gen (100 * n) s, [] ++ (List.replicate 100 Event.newModel ++
          ([.reportAllocs, .resetTimer] ++
          writeEvents (.exec insertMultiQuery ((List.replicate 100 gen).map insertArgs).flatten)
            "raw" "InsertMulti" (List.replicate n none)))⟩, none⟩ := by
  have h := stateAfter_appendCopies gen 100
    ((storeEnv gen).exec insertMultiQuery ((List.replicate 100 gen).map insertArgs).flatten)
    (storeEnv_exec_multi gen) n s
  have hdraw := drawModels_storeEnv gen 100 (⟨s, []⟩ : World (List Model))
  rw [raw_InsertMulti_eq, hdraw.1, hdraw.2]
  simp only [execState, execErrs, h.1, h.2]

/-- `Raw.Insert` on the store: every insert succeeds and appends one row. -/
theorem raw_Insert_store (raw : Raw) (gen : Model) (s : List Model) (n : Nat) :
    Raw.Insert raw (storeEnv gen) n ⟨s, []⟩
      = ⟨appendCopies gen n s, [] ++ ([.newModel, .reportAllocs, .resetTimer] ++
          writeEvents (.exec rawInsertSQL (insertArgs gen)) "raw" "Insert"
            (List.replicate n none))⟩ := by
  have h := stateAfter_appendCopies gen 1
    ((storeEnv gen).exec rawInsertSQL (insertArgs gen)) (storeEnv_exec_single gen) n s
  rw [Nat.one_mul] at h
  rw [raw_Insert_eq]
  simp only [storeEnv_newModel, execState, execErrs, h.1, h.2]

theorem reports_store_trace (A W : List Event) (hA : reports A = []) (hW : reports W = []) :
    reports ([] ++ (A ++ ([Event.reportAllocs, Event.resetTimer] ++ W))) = [] := by
  simp only [List.nil_append, reports_append, hA, hW]
  rfl

theorem reports_replicate_newModel (n : Nat) :
    reports (List.replicate n Event.newModel) = [] := by
  induction n with
  | zero => rfl
  | succ n ih =>
    rw [List.replicate_succ, ← List.singleton_append, reports_append, ih]
    rfl

theorem reports_writeEvents_ok (c : Call) (orm method : String) (n : Nat) :
    reports (writeEvents c orm method (List.replicate n none)) = [] := by
  rw [reports_writeEvents]
  induction n with
  | zero => rfl
  | succ n ih => simp [List.replicate_succ]

theorem valueTuples_length :
    ∃ tuples : List (List Nat), valueTuples insertMultiQuery = some tuples
      ∧ tuples.length = 100 ∧ ∀ t ∈ tuples, t.length = 7 := by
  refine ⟨_, valueTuples_insertMultiQuery, by simp, ?_⟩
  intro t ht
  obtain ⟨i, _, rfl⟩ := List.mem_map.1 ht
  rfl

/-- C3: `PgxPool.InsertMulti` passes to every bulk copy one and the same row
source of exactly 100 rows, each the seven values Name, Title, Fax, Web, Age,
Right, Counter of the record; `Raw.InsertMulti` passes a statement of exactly
100 value tuples. On the backing store that appends the rows it is given, every
iteration of either succeeds, and `N` iterations add exactly `100 * N` rows; one
iteration leaves the store as 100 sequential single inserts do. -/
theorem insertMulti_adds_hundred_rows (raw : Raw) (pgx : PgxPool) (k : Sqlx) (env : Env σ)
    (db : σ) (gen : Model) (s : List Model) (N : Nat) :
    PgxPool.insertMultiRows (env.newModel db).1
        = List.replicate 100 (Field.all.map (Field.get (env.newModel db).1))
      ∧ calls (timed (PgxPool.InsertMulti pgx k env N ⟨db, []⟩).trace)
          = List.replicate N (Call.copyFrom ["models"] k.columns
              (List.replicate 100 (Field.all.map (Field.get (env.newModel db).1))))
      ∧ (∃ tuples : List (List Nat), valueTuples insertMultiQuery = some tuples
          ∧ tuples.length = 100 ∧ ∀ t ∈ tuples, t.length = 7)
      ∧ (∃ args : List Value, calls (timed (Raw.InsertMulti raw env N ⟨db, []⟩).world.trace)
          = List.replicate N (Call.exec insertMultiQuery args))
      ∧ (PgxPool.InsertMulti pgx k (storeEnv gen) N ⟨s, []⟩).db.length = s.length + 100 * N
      ∧ reports (PgxPool.InsertMulti pgx k (storeEnv gen) N ⟨s, []⟩).trace = []
      ∧ (Raw.InsertMulti raw (storeEnv gen) N ⟨s, []⟩).panic = none
      ∧ (Raw.InsertMulti raw (storeEnv gen) N ⟨s, []⟩).world.db.length = s.length + 100 * N
      ∧ reports (Raw.InsertMulti raw (storeEnv gen) N ⟨s, []⟩).world.trace = []
      ∧ (Raw.Insert raw (storeEnv gen) 100 ⟨s, []⟩).db.length = s.length + 100
      ∧ reports (Raw.Insert raw (storeEnv gen) 100 ⟨s, []⟩).trace = []
      ∧ (Raw.InsertMulti raw (storeEnv gen) 1 ⟨s, []⟩).world.db
          = (Raw.Insert raw (storeEnv gen) 100 ⟨s, []⟩).db
      ∧ (PgxPool.InsertMulti pgx k (storeEnv gen) 1 ⟨s, []⟩).db
          = (Raw.Insert raw (storeEnv gen) 100 ⟨s, []⟩).db := by
  refine ⟨pgx_insertMultiRows_eq _, ?_, valueTuples_length,
    ⟨((drawModels env 100 ⟨db, []⟩).1.map insertArgs).flatten, ?_⟩, ?_, ?_, ?_, ?_, ?_, ?_, ?_, ?_,
    ?_⟩
  · rw [pgx_InsertMulti_timed, calls_writeEvents, answers_length,
      pgx_insertMultiRows_eq]
    rfl
  · rw [raw_InsertMulti_timed, calls_writeEvents, execErrs_length]
  · rw [pgx_InsertMulti_store, appendCopies_length]
  · rw [pgx_InsertMulti_store]
    exact reports_store_trace [Event.newModel] _ rfl (reports_writeEvents_ok ..)
  · rw [raw_InsertMulti_store]
  · rw [raw_InsertMulti_store, appendCopies_length]
  · rw [raw_InsertMulti_store]
    exact reports_store_trace _ _ (reports_replicate_newModel 100) (reports_writeEvents_ok ..)
  · rw [raw_Insert_store, appendCopies_length]
  · rw [raw_Insert_store]
    exact reports_store_trace [Event.newModel] _ rfl (reports_writeEvents_ok ..)
  · rw [raw_InsertMulti_store, raw_Insert_store]
  · rw [pgx_InsertMulti_store, raw_Insert_store]

/-! ## Summary of the runs, for every backend -/

theorem firstPanic_raw_iff (l : List (Except String Rows)) :
    firstPanic rawReadPanic l = none ↔ ∀ a ∈ l, isCursor a = true := by
  constructor
  · intro h a ha
    induction l with
    | nil => cases ha
    | cons b l ih =>
      simp only [firstPanic] at h
      cases b with
      | error e => simp [rawReadPanic] at h
      | ok rows =>
        simp only [rawReadPanic] at h
        rcases List.mem_cons.1 ha with h1 | h1
        · rw [h1]; rfl
        · exact ih h h1
  · exact firstPanic_raw_none l

/-- `Raw.ReadSlice` runs to the end exactly when none of its timed queries
fails; otherwise it ends in the panic of the first failed one. -/
theorem raw_readSlice_completes_iff (raw : Raw) (env : Env σ) (N : Nat) (db : σ) :
    (Raw.ReadSlice raw env N ⟨db, []⟩).panic = none
      ↔ ∀ a ∈ answers (env.query rawSelectMultiSQL) N
          (execState env rawInsertSQL (insertArgs (env.newModel db).1) 100 (env.newModel db).2),
          isCursor a = true := by
  rw [raw_ReadSlice_panic]
  exact firstPanic_raw_iff _

theorem calls_of_marks (tr : List Event) :
    calls tr = (marks tr).filterMap fun m => match m with
      | .call c => some c
      | _ => none := by
  induction tr with
  | nil => rfl
  | cons e tr ih =>
    have hc : calls ([e] ++ tr) = calls [e] ++ calls tr := by
      simp only [calls, attempts_append, List.map_append]
    have hm : marks ([e] ++ tr) = marks [e] ++ marks tr := marks_append _ _
    rw [← List.singleton_append, hc, hm, List.filterMap_append, ih]
    cases e <;> rfl

theorem calls_replicate (n : Nat) (c : Call) :
    ((List.replicate n (Mark.call c)).filterMap fun m => match m with
      | .call c => some c
      | _ => none) = List.replicate n c := by
  induction n with
  | zero => rfl
  | succ n ih => simp [List.replicate_succ, ih]

/-- `PgxPool.ReadSlice` always runs to the end: it makes `N` measured
queries, whatever they answer, and an iteration whose query failed consists of
the query, its report under "pgx_pool" and "ReadSlice", and the operations on
the error cursor the driver returned (with a second report, of its `Err()`). -/
theorem pgx_readSlice_completes (pgx : PgxPool) (k : Sqlx) (env : Env σ) (N : Nat) (db : σ) :
    (PgxPool.ReadSlice pgx k env N ⟨db, []⟩).panic = none
      ∧ calls (timed (PgxPool.ReadSlice pgx k env N ⟨db, []⟩).world.trace)
          = List.replicate N (Call.query k.sqlxSelectMultiSQL)
      ∧ timed (PgxPool.ReadSlice pgx k env N ⟨db, []⟩).world.trace
          = ((answers (env.query k.sqlxSelectMultiSQL) N
              (execState env k.sqlxInsertSQL (insertArgs (env.newModel db).1) 100
                (env.newModel db).2)).map (pgxReadEvents k.sqlxSelectMultiSQL)).flatten
      ∧ ∀ e : String, pgxReadEvents k.sqlxSelectMultiSQL (.error e)
          = [.call (.query k.sqlxSelectMultiSQL) (some e), .setError "pgx_pool" "ReadSlice" e,
              .rowsNext false, .rowsErr (some e), .setError "pgx_pool" "ReadSlice" e,
              .rowsClose none] := by
  refine ⟨by rw [pgx_ReadSlice_eq], ?_, pgx_ReadSlice_timed pgx k env N db, fun e => rfl⟩
  rw [pgx_ReadSlice_timed, calls_of_marks,
    marks_flatten_map (pgxReadEvents k.sqlxSelectMultiSQL) _ (marks_pgxReadEvents _),
    answers_length, calls_replicate]

/-- The order of setup, timer and measured calls, for every backend: the
record syntheses and the seeding writes (none for Insert and InsertMulti, one
for Update and Read, 100 for ReadSlice) come first, then `ReportAllocs`, then
`ResetTimer`, then exactly `N` measured calls of the operation. This holds for
nine of the ten operations whatever the backend answers, and for
`Raw.ReadSlice` when each of its timed queries returns a cursor. -/
theorem measurement_order (raw : Raw) (pgx : PgxPool) (k : Sqlx) (env : Env σ) (N : Nat)
    (db : σ) :
    marks (Raw.Insert raw env N ⟨db, []⟩).trace
        = shape 1 0 (.exec rawInsertSQL (insertArgs (env.newModel db).1)) N
            (.exec rawInsertSQL (insertArgs (env.newModel db).1))
      ∧ marks (Raw.InsertMulti raw env N ⟨db, []⟩).world.trace
        = shape 100 0
            (.exec insertMultiQuery ((drawModels env 100 ⟨db, []⟩).1.map insertArgs).flatten) N
            (.exec insertMultiQuery ((drawModels env 100 ⟨db, []⟩).1.map insertArgs).flatten)
      ∧ marks (Raw.Update raw env N ⟨db, []⟩).trace
        = shape 1 1 (.exec rawInsertSQL (insertArgs (env.newModel db).1)) N
            (.exec rawUpdateSQL (updateArgs (env.newModel db).1))
      ∧ marks (Raw.Read raw env N ⟨db, []⟩).trace
        = shape 1 1 (.exec rawInsertSQL (insertArgs (env.newModel db).1)) N
            (.queryRow rawSelectSQL [.int 1])
      ∧ ((∀ a ∈ answers (env.query rawSelectMultiSQL) N
            (execState env rawInsertSQL (insertArgs (env.newModel db).1) 100 (env.newModel db).2),
            isCursor a = true) →
          marks (Raw.ReadSlice raw env N ⟨db, []⟩).world.trace
            = shape 1 100 (.exec rawInsertSQL (insertArgs (env.newModel db).1)) N
                (.query rawSelectMultiSQL))
      ∧ marks (PgxPool.Insert pgx k env N ⟨db, []⟩).trace
        = shape 1 0 (.exec k.sqlxInsertSQL (insertArgs (env.newModel db).1)) N
            (.exec k.sqlxInsertSQL (insertArgs (env.newModel db).1))
      ∧ marks (PgxPool.InsertMulti pgx k env N ⟨db, []⟩).trace
        = shape 1 0 (.copyFrom ["models"] k.columns (PgxPool.insertMultiRows (env.newModel db).1)) N
            (.copyFrom ["models"] k.columns (PgxPool.insertMultiRows (env.newModel db).1))
      ∧ marks (PgxPool.Update pgx k env N ⟨db, []⟩).trace
        = shape 1 1 (.exec k.sqlxInsertSQL (insertArgs { (env.newModel db).1 with Id := 1 })) N
            (.exec k.sqlxUpdateSQL (updateArgs { (env.newModel db).1 with Id := 1 }))
      ∧ marks (PgxPool.Read pgx k env N ⟨db, []⟩).trace
        = shape 1 1 (.exec k.sqlxInsertSQL (insertArgs { (env.newModel db).1 with Id := 1 })) N
            (.queryRow k.sqlxSelectSQL [.int 1])
      ∧ marks (PgxPool.ReadSlice pgx k env N ⟨db, []⟩).world.trace
        = shape 1 100 (.exec k.sqlxInsertSQL (insertArgs (env.newModel db).1)) N
            (.query k.sqlxSelectMultiSQL) := by
  refine ⟨raw_Insert_marks .., raw_InsertMulti_marks .., raw_Update_marks .., raw_Read_marks ..,
    ?_, pgx_Insert_marks .., pgx_InsertMulti_marks .., pgx_Update_marks .., pgx_Read_marks ..,
    pgx_ReadSlice_marks ..⟩
  intro h
  rw [raw_ReadSlice_marks, uptoPanic_of_firstPanic_none _ _ (firstPanic_raw_none _ h),
    answers_length]

/-- Every pattern of failing writes is the behaviour of some backend: on the
scripted backend the `i`-th call of the timed loop of `Raw.Insert` fails
exactly as the script says. -/
theorem raw_Insert_follows_script (raw : Raw) (gen : Model) (f : Nat → Option String)
    (q : Nat → Except String Rows) (N : Nat) :
    timed (Raw.Insert raw (scriptEnv gen f q) N ⟨0, []⟩).trace
      = writeEvents (.exec rawInsertSQL (insertArgs gen)) "raw" "Insert"
          ((List.range N).map f) := by
  rw [raw_Insert_timed]
  show writeEvents _ _ _ (execErrs (scriptEnv gen f q) rawInsertSQL (insertArgs gen) N 0) = _
  rw [scriptEnv_execErrs, List.range_eq_range']
  rfl

end Bench
